import Mathlib

/-!
Verification development for the core of a runtime function interceptor
(`guminterceptor_commented.c`).  The C code is shallowly embedded: pointers
and object identities become natural numbers, the per-process registry of
function contexts becomes an association list plus a heap of context
records, GLib containers become Lean lists, and machine integers (`gint`,
`gsize`) become `Int`/`Nat` with explicit `% 2^w` where truncation matters.
External collaborators (the architecture backend, the OS layer, GLib's
sorting) are modelled by oracle functions gathered in `GumEnv`, exactly at
the interface the C code consumes.
-/

/-- Pointer-sized addresses (`gpointer` / `gsize`), 64-bit. -/
abbrev Addr := Nat

/-- Identity of a heap-allocated `GumFunctionContext` object. -/
abbrev CtxId := Nat

/-- Identity of a `GumInvocationListener` object. -/
abbrev ListenerId := Nat

/-- Identity of a thread (`GumThreadId`). -/
abbrev ThreadId := Nat

/-- Embedding of `GumInterceptorType`: default (listener-capable) or fast (replacement only). -/
inductive GumInterceptorType where
  | default
  | fast
deriving DecidableEq, Repr

/-- Embedding of `ListenerEntry`: listener handle, its interface capabilities
(whether `on_enter` / `on_leave` are non-NULL), and per-function data. -/
structure ListenerEntry where
  listener_instance : ListenerId
  function_data : Nat
  has_on_enter : Bool
  has_on_leave : Bool
deriving DecidableEq, Repr

/-- Interface capability record of a listener (`GumInvocationListenerInterface`):
which callbacks are non-NULL. -/
structure ListenerIface where
  has_on_enter : Bool
  has_on_leave : Bool
deriving DecidableEq, Repr

/-- Embedding of `GumFunctionContext`: per-target state.  `listener_entries` is the
published copy-on-write snapshot; a `none` slot is a NULLed-out entry. -/
structure GumFunctionContext where
  function_address : Addr
  type : GumInterceptorType
  listener_entries : List (Option ListenerEntry)
  replacement_function : Option Nat
  replacement_data : Nat
  has_on_leave_listener : Bool
  activated : Bool
  destroyed : Bool
  trampoline_usage_counter : Int
  on_invoke_trampoline : Nat
  on_leave_trampoline : Nat
  overwritten_prologue_len : Nat
deriving DecidableEq, Repr

/-- The opaque datum plus release callback of a `GumDestroyTask`, as the tags
the interceptor actually schedules (old listener snapshot, listener unref,
context finalization). -/
inductive NotifyData where
  | unrefOldEntries (old : List (Option ListenerEntry))
  | unrefListener (l : ListenerId)
  | performDestroy (c : CtxId)
deriving DecidableEq, Repr

/-- Embedding of `GumDestroyTask`: context, release callback and datum. -/
structure GumDestroyTask where
  ctx : CtxId
  data : NotifyData
deriving DecidableEq, Repr

/-- The two `GumUpdateTaskFunc` values the interceptor schedules. -/
inductive GumUpdateFunc where
  | activate
  | deactivate
deriving DecidableEq, Repr

/-- Embedding of `GumUpdateTask`: context and update function. -/
structure GumUpdateTask where
  ctx : CtxId
  func : GumUpdateFunc
deriving DecidableEq, Repr

/-- Embedding of `GumInterceptorTransaction`.  The `pending_update_tasks` hash table
(page address to ordered task array) is modelled as an association list in
insertion order. -/
structure GumTransaction where
  is_dirty : Bool
  level : Int
  pending_destroy_tasks : List GumDestroyTask
  pending_update_tasks : List (Addr × List GumUpdateTask)
deriving DecidableEq, Repr

/-- Mutable state of the interceptor singleton: heap of context records,
the address-to-context map, the selected thread id and the current
transaction. -/
structure GumInterceptorState where
  next_ctx_id : CtxId
  ctxs : CtxId → GumFunctionContext
  function_by_address : List (Addr × CtxId)
  selected_thread_id : ThreadId
  current_transaction : GumTransaction

/-- External collaborators (backend and OS), at the interface the core
consumes: code-signing policy, grafted-trampoline claiming, trampoline
creation and its outputs, redirect resolution, pointer-auth stripping and
the page size. -/
structure GumEnv where
  page_size : Nat
  code_signing_required : Bool
  claim_grafted : Addr → Bool
  create_trampoline : Addr → Bool
  resolve_redirect : Addr → Option Addr
  strip_code_pointer : Addr → Addr
  on_invoke_of : Addr → Nat
  on_leave_of : Addr → Nat
  prologue_len_of : Addr → Nat

/-- Write one context record of the heap. -/
def setCtx (r : CtxId → GumFunctionContext) (i : CtxId) (c : GumFunctionContext) :
    CtxId → GumFunctionContext :=
  fun j => if j = i then c else r j

/-- Embedding of `gum_function_context_new`: `g_slice_new0` plus address, type and an
empty listener array. -/
def gum_function_context_new (function_address : Addr) (type : GumInterceptorType) :
    GumFunctionContext :=
  { function_address := function_address
    type := type
    listener_entries := []
    replacement_function := none
    replacement_data := 0
    has_on_leave_listener := false
    activated := false
    destroyed := false
    trampoline_usage_counter := 0
    on_invoke_trampoline := 0
    on_leave_trampoline := 0
    overwritten_prologue_len := 0 }

/-- The copy loop of `gum_function_context_add_listener`: copy the non-NULL
entries of the old array, in order. -/
def copyLiveEntries : List (Option ListenerEntry) → List (Option ListenerEntry)
  | [] => []
  | none :: rest => copyLiveEntries rest
  | some e :: rest => some e :: copyLiveEntries rest

/-- The slot-nulling step of `gum_function_context_remove_listener`: NULL out
the first non-NULL slot holding the listener. -/
def nullOutListener (l : ListenerId) : List (Option ListenerEntry) → List (Option ListenerEntry)
  | [] => []
  | none :: rest => none :: nullOutListener l rest
  | some e :: rest =>
      if e.listener_instance = l then none :: rest
      else some e :: nullOutListener l rest

/-- The rescan loop of `gum_function_context_remove_listener`: does some
non-NULL slot provide `on_leave`? -/
def anyLiveOnLeave : List (Option ListenerEntry) → Bool
  | [] => false
  | none :: rest => anyLiveOnLeave rest
  | some e :: rest => e.has_on_leave || anyLiveOnLeave rest

/-- The loop of `gum_function_context_find_listener`: first non-NULL slot
holding the listener. -/
def findListenerSlot (l : ListenerId) : List (Option ListenerEntry) → Option ListenerEntry
  | [] => none
  | none :: rest => findListenerSlot l rest
  | some e :: rest =>
      if e.listener_instance = l then some e else findListenerSlot l rest

/-- Embedding of `gum_function_context_has_listener`. -/
def gum_function_context_has_listener (ctx : GumFunctionContext) (l : ListenerId) : Bool :=
  (findListenerSlot l ctx.listener_entries).isSome

/-- The loop of `gum_function_context_find_taken_listener_slot`. -/
def findTakenSlot : List (Option ListenerEntry) → Option ListenerEntry
  | [] => none
  | none :: rest => findTakenSlot rest
  | some e :: _ => some e

/-- Embedding of `gum_function_context_is_empty`: no replacement and no live listener slot. -/
def gum_function_context_is_empty (ctx : GumFunctionContext) : Bool :=
  if ctx.replacement_function.isSome then false
  else (findTakenSlot ctx.listener_entries).isNone

/-- Embedding of `gum_function_context_add_listener`: build the new entry from the
listener's interface, publish a copy-on-write snapshot (live old entries in
order, new entry appended), schedule the old snapshot for release on the
given transaction, and set `has_on_leave_listener` when the new entry
provides `on_leave` (the flag is only ever raised here, never recomputed). -/
def gum_function_context_add_listener (iface : ListenerId → ListenerIface)
    (ctx : GumFunctionContext) (cid : CtxId) (l : ListenerId) (function_data : Nat)
    (t : GumTransaction) : GumFunctionContext × GumTransaction :=
  let entry : ListenerEntry :=
    { listener_instance := l
      function_data := function_data
      has_on_enter := (iface l).has_on_enter
      has_on_leave := (iface l).has_on_leave }
  let old := ctx.listener_entries
  let newEntries := copyLiveEntries old ++ [some entry]
  let ctx' := { ctx with
    listener_entries := newEntries
    has_on_leave_listener :=
      if entry.has_on_leave then true else ctx.has_on_leave_listener }
  let t' := { t with pending_destroy_tasks :=
      t.pending_destroy_tasks ++ [{ ctx := cid, data := NotifyData.unrefOldEntries old }] }
  (ctx', t')

/-- Embedding of `gum_function_context_remove_listener`: NULL the listener's slot, then
recompute `has_on_leave_listener` by scanning the remaining entries. -/
def gum_function_context_remove_listener (ctx : GumFunctionContext) (l : ListenerId) :
    GumFunctionContext :=
  let entries' := nullOutListener l ctx.listener_entries
  { ctx with
    listener_entries := entries'
    has_on_leave_listener := anyLiveOnLeave entries' }

/-- Embedding of `gum_page_address_from_pointer`: mask the pointer down to its page start
(`ptr & ~(page_size - 1)`, i.e. `(ptr / page_size) * page_size` for the
power-of-two page sizes the OS reports). -/
def gum_page_address_from_pointer (page_size : Nat) (ptr : Addr) : Addr :=
  (ptr / page_size) * page_size

/-- Embedding of `gum_page_address_compare`: the C body is
`(gint) (GPOINTER_TO_SIZE (a) - GPOINTER_TO_SIZE (b))` — a 64-bit unsigned
subtraction whose result is truncated to a signed 32-bit `gint`. -/
def gum_page_address_compare (a b : Addr) : Int :=
  let diff : Nat := (a + 2 ^ 64 - b % 2 ^ 64) % 2 ^ 64
  let low : Nat := diff % 2 ^ 32
  if low < 2 ^ 31 then (low : Int) else (low : Int) - 2 ^ 32

/-- Stable insertion step for `g_list_sort` with `gum_page_address_compare`:
an incoming element goes after every element the comparator does not place
strictly above it (GLib's merge keeps the left element on ties, so the sort
is stable). -/
def gumSortInsert (x : Addr) : List Addr → List Addr
  | [] => [x]
  | y :: ys =>
      if gum_page_address_compare y x ≤ 0 then y :: gumSortInsert x ys
      else x :: y :: ys

/-- Embedding of `g_list_sort (addresses, gum_page_address_compare)`, modelled as a
stable sort by the comparator. -/
def sortPages (l : List Addr) : List Addr :=
  l.foldl (fun acc x => gumSortInsert x acc) []

/-- Append an update task under a page key of the pending-update map,
creating the key if absent (hash-table insertion order). -/
def addUpdateTask (m : List (Addr × List GumUpdateTask)) (page : Addr)
    (task : GumUpdateTask) : List (Addr × List GumUpdateTask) :=
  match m with
  | [] => [(page, [task])]
  | (p, ts) :: rest =>
      if p = page then (p, ts ++ [task]) :: rest
      else (p, ts) :: addUpdateTask rest page task

/-- Ensure a page key exists in the pending-update map (with an empty task
array when fresh). -/
def ensurePageKey (m : List (Addr × List GumUpdateTask)) (page : Addr) :
    List (Addr × List GumUpdateTask) :=
  match m with
  | [] => [(page, [])]
  | (p, ts) :: rest =>
      if p = page then (p, ts) :: rest
      else (p, ts) :: ensurePageKey rest page

/-- Embedding of `gum_interceptor_transaction_schedule_update`: file the task under the
start page of the overwritten prologue and, if the prologue straddles a page
boundary, also create the end page's key. -/
def gum_interceptor_transaction_schedule_update (page_size : Nat)
    (ctx : GumFunctionContext) (cid : CtxId) (func : GumUpdateFunc)
    (t : GumTransaction) : GumTransaction :=
  let function_address := ctx.function_address
  let start_page := gum_page_address_from_pointer page_size function_address
  let end_page := gum_page_address_from_pointer page_size
      (function_address + ctx.overwritten_prologue_len - 1)
  let m := addUpdateTask t.pending_update_tasks start_page { ctx := cid, func := func }
  let m := if end_page ≠ start_page then ensurePageKey m end_page else m
  { t with pending_update_tasks := m }

/-- Embedding of `gum_interceptor_transaction_schedule_destroy`: push a destroy task on
the tail of the queue. -/
def gum_interceptor_transaction_schedule_destroy (t : GumTransaction) (cid : CtxId)
    (data : NotifyData) : GumTransaction :=
  { t with pending_destroy_tasks :=
      t.pending_destroy_tasks ++ [{ ctx := cid, data := data }] }

/-- Embedding of `gum_interceptor_activate` / `gum_interceptor_deactivate` applied to the
context heap: activate is a no-op on a destroyed context and flips
`activated` on (the actual prologue write is the backend's); deactivate
flips it off. -/
def applyUpdate (r : CtxId → GumFunctionContext) (task : GumUpdateTask) :
    CtxId → GumFunctionContext :=
  match task.func with
  | GumUpdateFunc.activate =>
      let c := r task.ctx
      if c.destroyed then r else setCtx r task.ctx { c with activated := true }
  | GumUpdateFunc.deactivate =>
      let c := r task.ctx
      setCtx r task.ctx { c with activated := false }

/-- Run the ordered task array of one page. -/
def runTasks (r : CtxId → GumFunctionContext) : List GumUpdateTask →
    (CtxId → GumFunctionContext)
  | [] => r
  | task :: rest => runTasks (applyUpdate r task) rest

/-- The update phase of the commit applied to the context heap: for each
page in sorted order, run that page's tasks in scheduling order (the three
memory-protection strategies differ only in external side effects, not in
this sequence). -/
def runUpdatesHeap (r : CtxId → GumFunctionContext) (m : List (Addr × List GumUpdateTask)) :
    List Addr → CtxId → GumFunctionContext
  | [] => r
  | page :: rest => runUpdatesHeap (runTasks r ((List.lookup page m).getD [])) m rest

/-- The order in which the commit executes update tasks: the pages' task
arrays concatenated in sorted page order. -/
def updateTraceOf (m : List (Addr × List GumUpdateTask)) (pages : List Addr) :
    List GumUpdateTask :=
  pages.foldr (fun page acc => (List.lookup page m).getD [] ++ acc) []

/-- Embedding of `gum_interceptor_transaction_init`: clean transaction, level 0. -/
def gum_interceptor_transaction_init : GumTransaction :=
  { is_dirty := false
    level := 0
    pending_destroy_tasks := []
    pending_update_tasks := [] }

/-- The destroy-task drain loop of `gum_interceptor_transaction_end`: pop
tasks in order; a task whose context has `trampoline_usage_counter == 0` has
its release callback invoked (collected in the returned list, in order); any
other task is pushed on the tail of the next transaction's destroy queue and
that transaction is marked dirty. -/
def drainDestroyTasks (usage : CtxId → Int) :
    List GumDestroyTask → GumTransaction → List GumDestroyTask × GumTransaction
  | [], next => ([], next)
  | task :: rest, next =>
      if usage task.ctx = 0 then
        (task :: (drainDestroyTasks usage rest next).1,
          (drainDestroyTasks usage rest next).2)
      else
        drainDestroyTasks usage rest
          { next with
            is_dirty := true
            pending_destroy_tasks := next.pending_destroy_tasks ++ [task] }

/-- Result of `gum_interceptor_transaction_end`: the new interceptor state,
the destroy tasks whose release callbacks ran (in order), and the executed
update tasks (in order). -/
structure CommitResult where
  state : GumInterceptorState
  released : List GumDestroyTask
  update_trace : List GumUpdateTask

/-- Embedding of `gum_interceptor_transaction_begin`: bump the nesting level. -/
def gum_interceptor_transaction_begin (s : GumInterceptorState) : GumInterceptorState :=
  { s with current_transaction :=
      { s.current_transaction with level := s.current_transaction.level + 1 } }

/-- Embedding of `gum_interceptor_transaction_end`: drop the level; at the outermost
level, when dirty, snapshot the queues, install a fresh transaction, apply
the pending updates in sorted page order and drain the destroy tasks. -/
def gum_interceptor_transaction_end (s : GumInterceptorState) : CommitResult :=
  let t := { s.current_transaction with level := s.current_transaction.level - 1 }
  if t.level > 0 then
    { state := { s with current_transaction := t }, released := [], update_trace := [] }
  else if t.is_dirty = false then
    { state := { s with current_transaction := t }, released := [], update_trace := [] }
  else if t.pending_destroy_tasks = [] ∧ t.pending_update_tasks = [] then
    { state := { s with current_transaction := { t with is_dirty := false } }
      released := [], update_trace := [] }
  else
    let addresses := sortPages (t.pending_update_tasks.map Prod.fst)
    let ctxs' := runUpdatesHeap s.ctxs t.pending_update_tasks addresses
    let usage := fun c => (ctxs' c).trampoline_usage_counter
    { state := { s with
        ctxs := ctxs'
        current_transaction :=
          (drainDestroyTasks usage t.pending_destroy_tasks
            gum_interceptor_transaction_init).2 }
      released := (drainDestroyTasks usage t.pending_destroy_tasks
          gum_interceptor_transaction_init).1
      update_trace := updateTraceOf t.pending_update_tasks addresses }

/-- Embedding of `gum_interceptor_flush`: at nesting level zero, open and close a
transaction, then report whether the pending destroy queue drained empty;
at a nonzero level, do nothing and report FALSE. -/
def gum_interceptor_flush (s : GumInterceptorState) : GumInterceptorState × Bool :=
  if s.current_transaction.level = 0 then
    let r := gum_interceptor_transaction_end (gum_interceptor_transaction_begin s)
    (r.state, r.state.current_transaction.pending_destroy_tasks = [])
  else
    (s, false)

/-- The error codes `gum_interceptor_instrument` reports (NONE is absorbed
by the `Except` success case). -/
inductive GumInstrumentationError where
  | wrong_signature
  | policy_violation
  | wrong_type
deriving DecidableEq, Repr

/-- Embedding of `GumAttachReturn`. -/
inductive GumAttachReturn where
  | ok
  | wrong_signature
  | already_attached
  | policy_violation
  | wrong_type
deriving DecidableEq, Repr

/-- Embedding of `GumReplaceReturn`. -/
inductive GumReplaceReturn where
  | ok
  | wrong_signature
  | already_replaced
  | policy_violation
  | wrong_type
deriving DecidableEq, Repr

/-- Embedding of `gum_interceptor_has`: is the address in the address-to-context map? -/
def gum_interceptor_has (m : List (Addr × CtxId)) (a : Addr) : Bool :=
  (List.lookup a m).isSome

/-- Embedding of `gum_interceptor_resolve`: strip auth bits; when the address is not a
known context and signing policy permits, follow an existing redirect
recursively.  The C recursion is unbounded; `fuel` bounds it here, and the
claims never depend on the exhausted case. -/
def gum_interceptor_resolve (env : GumEnv) (m : List (Addr × CtxId)) :
    Nat → Addr → Addr
  | 0, address => env.strip_code_pointer address
  | fuel + 1, address =>
      let address := env.strip_code_pointer address
      if gum_interceptor_has m address then address
      else if env.code_signing_required then address
      else
        match env.resolve_redirect address with
        | some target => gum_interceptor_resolve env m fuel target
        | none => address

/-- The context record a fresh instrumentation builds: `g_slice_new0`
initialization plus the trampolines and prologue length the backend records
on success. -/
def instrumentFreshCtx (env : GumEnv) (function_address : Addr)
    (type : GumInterceptorType) : GumFunctionContext :=
  { gum_function_context_new function_address type with
    on_invoke_trampoline := env.on_invoke_of function_address
    on_leave_trampoline := env.on_leave_of function_address
    overwritten_prologue_len := env.prologue_len_of function_address }

/-- Interceptor state after a fresh instrumentation succeeded: the new
context on the heap, its map entry, and its activation scheduled. -/
def instrumentFreshState (env : GumEnv) (s : GumInterceptorState)
    (type : GumInterceptorType) (function_address : Addr) : GumInterceptorState :=
  { s with
    next_ctx_id := s.next_ctx_id + 1
    ctxs := setCtx s.ctxs s.next_ctx_id (instrumentFreshCtx env function_address type)
    function_by_address := s.function_by_address ++ [(function_address, s.next_ctx_id)]
    current_transaction := gum_interceptor_transaction_schedule_update env.page_size
      (instrumentFreshCtx env function_address type) s.next_ctx_id
      GumUpdateFunc.activate s.current_transaction }

/-- Embedding of `gum_interceptor_instrument`: reuse an existing context of the same
type (wrong type is an error); otherwise create a context, claim a grafted
trampoline under signing policy or ask the backend to create one, insert it
in the map and schedule its activation. -/
def gum_interceptor_instrument (env : GumEnv) (s : GumInterceptorState)
    (type : GumInterceptorType) (function_address : Addr) :
    Except GumInstrumentationError CtxId × GumInterceptorState :=
  match List.lookup function_address s.function_by_address with
  | some cid =>
      if (s.ctxs cid).type ≠ type then (Except.error GumInstrumentationError.wrong_type, s)
      else (Except.ok cid, s)
  | none =>
      let trampOk :=
        if env.code_signing_required then env.claim_grafted function_address
        else env.create_trampoline function_address
      if trampOk then
        (Except.ok s.next_ctx_id, instrumentFreshState env s type function_address)
      else if env.code_signing_required then
        (Except.error GumInstrumentationError.policy_violation, s)
      else
        (Except.error GumInstrumentationError.wrong_signature, s)

/-- Mark the current transaction dirty (`self->current_transaction.is_dirty = TRUE`). -/
def markDirty (s : GumInterceptorState) : GumInterceptorState :=
  { s with current_transaction := { s.current_transaction with is_dirty := true } }

/-- Embedding of `gum_interceptor_attach`: begin a dirty transaction, resolve, instrument
with the default type, reject a duplicate listener, otherwise append a new
listener entry; end the transaction.  (The surrounding lock and the caller's
ignore-mode pinning act on state outside this model.) -/
def gum_interceptor_attach (env : GumEnv) (fuel : Nat) (s0 : GumInterceptorState)
    (function_address : Addr) (listener : ListenerId) (iface : ListenerId → ListenerIface)
    (listener_function_data : Nat) : GumAttachReturn × GumInterceptorState :=
  let s := markDirty (gum_interceptor_transaction_begin s0)
  let addr := gum_interceptor_resolve env s.function_by_address fuel function_address
  match gum_interceptor_instrument env s GumInterceptorType.default addr with
  | (Except.error e, s1) =>
      let r := match e with
        | GumInstrumentationError.wrong_signature => GumAttachReturn.wrong_signature
        | GumInstrumentationError.policy_violation => GumAttachReturn.policy_violation
        | GumInstrumentationError.wrong_type => GumAttachReturn.wrong_type
      (r, (gum_interceptor_transaction_end s1).state)
  | (Except.ok cid, s1) =>
      if gum_function_context_has_listener (s1.ctxs cid) listener then
        (GumAttachReturn.already_attached, (gum_interceptor_transaction_end s1).state)
      else
        let (ctx', t') := gum_function_context_add_listener iface (s1.ctxs cid) cid
            listener listener_function_data s1.current_transaction
        let s2 := { s1 with ctxs := setCtx s1.ctxs cid ctx', current_transaction := t' }
        (GumAttachReturn.ok, (gum_interceptor_transaction_end s2).state)

/-- Embedding of `gum_interceptor_replace_with_type`: begin a dirty transaction, resolve,
instrument; fail when a replacement is already installed, otherwise store
the replacement function and data and hand back the on-invoke trampoline
through the out pointer when one was supplied; end the transaction. -/
def gum_interceptor_replace_with_type (env : GumEnv) (fuel : Nat)
    (s0 : GumInterceptorState) (type : GumInterceptorType) (function_address : Addr)
    (replacement_function : Nat) (replacement_data : Nat) (want_original : Bool) :
    (GumReplaceReturn × Option Nat) × GumInterceptorState :=
  let s := markDirty (gum_interceptor_transaction_begin s0)
  let addr := gum_interceptor_resolve env s.function_by_address fuel function_address
  match gum_interceptor_instrument env s type addr with
  | (Except.error e, s1) =>
      let r := match e with
        | GumInstrumentationError.wrong_signature => GumReplaceReturn.wrong_signature
        | GumInstrumentationError.policy_violation => GumReplaceReturn.policy_violation
        | GumInstrumentationError.wrong_type => GumReplaceReturn.wrong_type
      ((r, none), (gum_interceptor_transaction_end s1).state)
  | (Except.ok cid, s1) =>
      if (s1.ctxs cid).replacement_function.isSome then
        ((GumReplaceReturn.already_replaced, none),
          (gum_interceptor_transaction_end s1).state)
      else
        let ctx := s1.ctxs cid
        let ctx' := { ctx with
          replacement_data := replacement_data
          replacement_function := some replacement_function }
        let out := if want_original then some ctx.on_invoke_trampoline else none
        let s2 := { s1 with ctxs := setCtx s1.ctxs cid ctx' }
        ((GumReplaceReturn.ok, out), (gum_interceptor_transaction_end s2).state)

/-- One in-flight intercepted call on a thread's shadow stack
(`GumInvocationStackEntry`); `invocation_function` is the
`invocation_context.function` pointer recorded at push time. -/
structure GumInvocationStackEntry where
  function_ctx : CtxId
  caller_ret_addr : Nat
  invocation_function : Addr
  calling_replacement : Bool
deriving DecidableEq, Repr

/-- Per-thread interceptor state (`InterceptorThreadContext`): the ignore
level and the shadow stack (index 0 is the bottom; the top is the last
element, as in the underlying grow-up array). -/
structure InterceptorThreadContext where
  ignore_level : Int
  stack : List GumInvocationStackEntry
deriving DecidableEq, Repr

/-- Embedding of `gum_interceptor_ignore_current_thread`: bump the ignore level. -/
def gum_interceptor_ignore_current_thread (c : InterceptorThreadContext) :
    InterceptorThreadContext :=
  { c with ignore_level := c.ignore_level + 1 }

/-- Embedding of `gum_interceptor_unignore_current_thread`: drop the ignore level. -/
def gum_interceptor_unignore_current_thread (c : InterceptorThreadContext) :
    InterceptorThreadContext :=
  { c with ignore_level := c.ignore_level - 1 }

/-- Embedding of `gum_interceptor_maybe_unignore_current_thread`: decrement only a
strictly positive level, reporting whether a decrement happened. -/
def gum_interceptor_maybe_unignore_current_thread (c : InterceptorThreadContext) :
    InterceptorThreadContext × Bool :=
  if c.ignore_level ≤ 0 then (c, false)
  else ({ c with ignore_level := c.ignore_level - 1 }, true)

/-- The loop of `gum_invocation_stack_translate`: scan frames from index 0;
the first frame whose context's `on_leave_trampoline` equals the return
address yields its saved caller return address; otherwise the address is
returned unchanged. -/
def gum_invocation_stack_translate (ctxs : CtxId → GumFunctionContext) :
    List GumInvocationStackEntry → Nat → Nat
  | [], return_address => return_address
  | entry :: rest, return_address =>
      if (ctxs entry.function_ctx).on_leave_trampoline = return_address then
        entry.caller_ret_addr
      else gum_invocation_stack_translate ctxs rest return_address

/-- Embedding of `_gum_interceptor_translate_top_return_address`: consult only the top
frame, falling back to the input when the stack is empty or the top frame
does not match. -/
def _gum_interceptor_translate_top_return_address (ctxs : CtxId → GumFunctionContext)
    (stack : List GumInvocationStackEntry) (return_address : Nat) : Nat :=
  match stack.getLast? with
  | none => return_address
  | some entry =>
      if (ctxs entry.function_ctx).on_leave_trampoline = return_address then
        entry.caller_ret_addr
      else return_address

/-- Embedding of `gum_interceptor_save`: the saved invocation state is the current
shadow-stack depth. -/
def gum_interceptor_save (stack : List GumInvocationStackEntry) : Nat :=
  stack.length

/-- The decrement loop of `gum_interceptor_restore`: atomically decrement
the usage counter of each discarded frame's function context. -/
def decUsageList (usage : CtxId → Int) : List GumInvocationStackEntry → CtxId → Int
  | [] => usage
  | entry :: rest =>
      decUsageList
        (fun c => if c = entry.function_ctx then usage c - 1 else usage c) rest

/-- Embedding of `gum_interceptor_restore`: when the depth changed since the save,
decrement the usage counter of every frame above the saved depth and
truncate the stack to that depth. -/
def gum_interceptor_restore (old_depth : Nat) (stack : List GumInvocationStackEntry)
    (usage : CtxId → Int) : List GumInvocationStackEntry × (CtxId → Int) :=
  if stack.length = old_depth then (stack, usage)
  else (stack.take old_depth, decUsageList usage (stack.drop old_depth))

/-- Inputs of `_gum_function_context_begin_invocation`: the target context
record (and its identity), whether the guard TLS slot already holds this
interceptor, the thread's shadow stack and ignore level, the interceptor's
selected thread id, the current thread id and the caller return address. -/
structure BeginArgs where
  fctx : GumFunctionContext
  fctx_id : CtxId
  guard_held : Bool
  stack : List GumInvocationStackEntry
  ignore_level : Int
  selected_thread_id : ThreadId
  current_thread_id : ThreadId
  caller_ret_addr : Nat

/-- Outputs of `_gum_function_context_begin_invocation`: where execution
continues, whether the call was bypassed, the computed listener/trap flags,
the new shadow stack, the (possibly rewritten) caller return address, the
net change to the context's usage counter, and the listener entries whose
`on_enter` ran, in order. -/
structure BeginResult where
  next_hop : Nat
  bypassed : Bool
  invoke_listeners : Bool
  will_trap_on_leave : Bool
  stack : List GumInvocationStackEntry
  caller_ret_addr : Nat
  usage_delta : Int
  fired : List ListenerEntry
deriving DecidableEq, Repr

/-- Embedding of `gum_invocation_stack_push`: append a zero-initialized frame recording
the context and the caller return address; `invocation_context.function` is
set to the context's function address. -/
def gum_invocation_stack_push (stack : List GumInvocationStackEntry)
    (fctx : GumFunctionContext) (cid : CtxId) (caller_ret_addr : Nat) :
    List GumInvocationStackEntry :=
  stack ++ [{ function_ctx := cid
              caller_ret_addr := caller_ret_addr
              invocation_function := fctx.function_address
              calling_replacement := false }]

/-- Set `calling_replacement` on the top shadow-stack frame. -/
def markTopCallingReplacement : List GumInvocationStackEntry →
    List GumInvocationStackEntry
  | [] => []
  | [entry] => [{ entry with calling_replacement := true }]
  | entry :: rest => entry :: markTopCallingReplacement rest

/-- The replacement-reentry test of `_gum_function_context_begin_invocation`:
the top frame is a replacement call into this same function. -/
def replacementReentry (stack : List GumInvocationStackEntry)
    (function_address : Addr) : Bool :=
  match stack.getLast? with
  | none => false
  | some entry => entry.calling_replacement && entry.invocation_function == function_address

/-- Embedding of `_gum_function_context_begin_invocation`: bump the usage counter; bypass
under the TLS guard or on replacement reentry; compute `invoke_listeners`
from the selected thread and the ignore level and `will_trap_on_leave` from
the replacement pointer and `has_on_leave_listener`; push a frame when
either holds; dispatch `on_enter` to live listeners; pop the
listeners-only frame; reroute the caller return address through the
on-leave trampoline when trapping; continue at the replacement or the
on-invoke trampoline; drop the usage counter unless trapping on leave. -/
def _gum_function_context_begin_invocation (a : BeginArgs) : BeginResult :=
  if a.guard_held then
    { next_hop := a.fctx.on_invoke_trampoline
      bypassed := true
      invoke_listeners := true
      will_trap_on_leave := false
      stack := a.stack
      caller_ret_addr := a.caller_ret_addr
      usage_delta := 0
      fired := [] }
  else if replacementReentry a.stack a.fctx.function_address then
    { next_hop := a.fctx.on_invoke_trampoline
      bypassed := true
      invoke_listeners := true
      will_trap_on_leave := false
      stack := a.stack
      caller_ret_addr := a.caller_ret_addr
      usage_delta := 0
      fired := [] }
  else
    let invoke1 : Bool :=
      if a.selected_thread_id ≠ 0 then a.current_thread_id == a.selected_thread_id
      else true
    let invoke_listeners : Bool :=
      if invoke1 then decide (a.ignore_level ≤ 0) else invoke1
    let will_trap_on_leave : Bool :=
      a.fctx.replacement_function.isSome ||
        (invoke_listeners && a.fctx.has_on_leave_listener)
    let stack1 :=
      if will_trap_on_leave then
        gum_invocation_stack_push a.stack a.fctx a.fctx_id a.caller_ret_addr
      else if invoke_listeners then
        gum_invocation_stack_push a.stack a.fctx a.fctx_id a.fctx.function_address
      else a.stack
    let fired :=
      if invoke_listeners then
        (a.fctx.listener_entries.filterMap id).filter (fun e => e.has_on_enter)
      else []
    let stack2 :=
      if !will_trap_on_leave && invoke_listeners then stack1.dropLast else stack1
    let caller' :=
      if will_trap_on_leave then a.fctx.on_leave_trampoline else a.caller_ret_addr
    match a.fctx.replacement_function with
    | some r =>
        { next_hop := r
          bypassed := false
          invoke_listeners := invoke_listeners
          will_trap_on_leave := will_trap_on_leave
          stack := markTopCallingReplacement stack2
          caller_ret_addr := caller'
          usage_delta := 1
          fired := fired }
    | none =>
        { next_hop := a.fctx.on_invoke_trampoline
          bypassed := false
          invoke_listeners := invoke_listeners
          will_trap_on_leave := will_trap_on_leave
          stack := stack2
          caller_ret_addr := caller'
          usage_delta := if will_trap_on_leave then 1 else 0
          fired := fired }

/-- Sample listener entry for concrete instantiations. -/
def sampleEntry : ListenerEntry :=
  { listener_instance := 3, function_data := 7, has_on_enter := true, has_on_leave := true }

/-- Sample function context for concrete instantiations. -/
def sampleCtx : GumFunctionContext :=
  gum_function_context_new 4096 GumInterceptorType.default

/-- Sample context heap for concrete instantiations. -/
def sampleHeap : CtxId → GumFunctionContext := fun _ => sampleCtx

/-- The copy loop of `gum_function_context_add_listener` produces exactly
the non-NULL entries, in order. -/
theorem copyLiveEntries_eq (xs : List (Option ListenerEntry)) :
    copyLiveEntries xs = (xs.filterMap id).map some := by
  induction xs with
  | nil => simp [copyLiveEntries]
  | cons h t ih => cases h <;> simp [copyLiveEntries, ih]

/-- The rescan loop of `gum_function_context_remove_listener` reports
whether some live entry provides `on_leave`. -/
theorem anyLiveOnLeave_iff (xs : List (Option ListenerEntry)) :
    anyLiveOnLeave xs = true ↔ ∃ e, some e ∈ xs ∧ e.has_on_leave = true := by
  induction xs with
  | nil => simp [anyLiveOnLeave]
  | cons h t ih =>
    cases h with
    | none => simp [anyLiveOnLeave, ih]
    | some e =>
      simp only [anyLiveOnLeave, Bool.or_eq_true, ih, List.mem_cons]
      constructor
      · rintro (hl | ⟨e', he', hl⟩)
        · exact ⟨e, Or.inl rfl, hl⟩
        · exact ⟨e', Or.inr he', hl⟩
      · rintro ⟨e', (he' | he'), hl⟩
        · cases Option.some.inj he'
          exact Or.inl hl
        · exact Or.inr ⟨e', he', hl⟩

/-- A context's `has_on_leave_listener` flag is in sync with its published
listener list. -/
def onLeaveFlagSync (ctx : GumFunctionContext) : Prop :=
  ctx.has_on_leave_listener = true ↔
    ∃ e, some e ∈ ctx.listener_entries ∧ e.has_on_leave = true

/-- C6: adding a listener publishes a fresh snapshot made of exactly the
non-null entries of the previous list, in order, followed by the new entry,
and schedules the previous list for deferred release; and after an add (when
the flag was in sync, as it is for every reachable context) or after a
remove, `has_on_leave_listener` holds iff some live entry provides
`on_leave`.  A freshly created context is in sync. -/
theorem listener_snapshot_and_on_leave_flag (iface : ListenerId → ListenerIface)
    (ctx : GumFunctionContext) (cid : CtxId) (l : ListenerId) (fd : Nat)
    (t : GumTransaction) :
    ((gum_function_context_add_listener iface ctx cid l fd t).1.listener_entries =
      (ctx.listener_entries.filterMap id).map some ++
        [some { listener_instance := l, function_data := fd,
                has_on_enter := (iface l).has_on_enter,
                has_on_leave := (iface l).has_on_leave }])
  ∧ ((gum_function_context_add_listener iface ctx cid l fd t).2.pending_destroy_tasks =
      t.pending_destroy_tasks ++
        [{ ctx := cid, data := NotifyData.unrefOldEntries ctx.listener_entries }])
  ∧ (onLeaveFlagSync ctx →
      onLeaveFlagSync (gum_function_context_add_listener iface ctx cid l fd t).1)
  ∧ (∀ (c : GumFunctionContext) (l2 : ListenerId),
      onLeaveFlagSync (gum_function_context_remove_listener c l2))
  ∧ (∀ (a : Addr) (ty : GumInterceptorType),
      onLeaveFlagSync (gum_function_context_new a ty)) := by
  refine ⟨?_, ?_, ?_, ?_, ?_⟩
  · simp [gum_function_context_add_listener, copyLiveEntries_eq]
  · simp [gum_function_context_add_listener]
  · intro hsync
    unfold onLeaveFlagSync at hsync ⊢
    have hmem : ∀ (xs : List (Option ListenerEntry)) (e : ListenerEntry),
        some e ∈ (xs.filterMap id).map some ↔ some e ∈ xs := by
      intro xs e
      simp [List.mem_filterMap]
    simp only [gum_function_context_add_listener, copyLiveEntries_eq, List.mem_append,
      List.mem_singleton]
    constructor
    · intro hflag
      by_cases hnew : (iface l).has_on_leave = true
      · exact ⟨_, Or.inr rfl, hnew⟩
      · simp only [hnew, Bool.false_eq_true, ite_false] at hflag
        obtain ⟨e, he, hl⟩ := hsync.mp hflag
        exact ⟨e, Or.inl ((hmem _ _).mpr he), hl⟩
    · rintro ⟨e, (he | he), hl⟩
      · have : ctx.has_on_leave_listener = true :=
          hsync.mpr ⟨e, (hmem _ _).mp he, hl⟩
        by_cases hnew : (iface l).has_on_leave = true <;> simp [hnew, this]
      · cases Option.some.inj he
        simp only at hl
        simp [hl]
  · intro c l2
    unfold onLeaveFlagSync
    simp only [gum_function_context_remove_listener]
    exact anyLiveOnLeave_iff _
  · intro a ty
    unfold onLeaveFlagSync
    simp [gum_function_context_new]

/-- Witness for `listener_snapshot_and_on_leave_flag`: a context with one
NULLed slot and one live on-leave-free entry, to which an on-leave listener
is added. -/
theorem listener_snapshot_and_on_leave_flag_witness :
    ((gum_function_context_add_listener (fun _ => { has_on_enter := true, has_on_leave := true })
        { sampleCtx with listener_entries :=
            [none, some { sampleEntry with has_on_leave := false }] }
        0 9 11 gum_interceptor_transaction_init).1.listener_entries =
      [some { sampleEntry with has_on_leave := false },
        some { listener_instance := 9, function_data := 11,
               has_on_enter := true, has_on_leave := true }])
  ∧ onLeaveFlagSync
      (gum_function_context_add_listener (fun _ => { has_on_enter := true, has_on_leave := true })
        { sampleCtx with listener_entries :=
            [none, some { sampleEntry with has_on_leave := false }] }
        0 9 11 gum_interceptor_transaction_init).1 := by
  have h := listener_snapshot_and_on_leave_flag
    (fun _ => { has_on_enter := true, has_on_leave := true })
    { sampleCtx with listener_entries :=
        [none, some { sampleEntry with has_on_leave := false }] }
    0 9 11 gum_interceptor_transaction_init
  refine ⟨?_, h.2.2.1 ?_⟩
  · rw [h.1]
    simp [sampleEntry]
  · unfold onLeaveFlagSync
    simp [sampleCtx, sampleEntry, gum_function_context_new]

/-- On the non-bypassed path of `_gum_function_context_begin_invocation`,
the computed flags and the next hop follow the selected thread, the ignore
level, the replacement pointer and `has_on_leave_listener`. -/
theorem begin_invocation_normal_path (a : BeginArgs)
    (h1 : a.guard_held = false)
    (h2 : replacementReentry a.stack a.fctx.function_address = false) :
    ((_gum_function_context_begin_invocation a).bypassed = false)
  ∧ ((_gum_function_context_begin_invocation a).invoke_listeners =
      ((a.selected_thread_id == 0 || a.current_thread_id == a.selected_thread_id)
        && decide (a.ignore_level ≤ 0)))
  ∧ ((_gum_function_context_begin_invocation a).will_trap_on_leave =
      (a.fctx.replacement_function.isSome ||
        ((_gum_function_context_begin_invocation a).invoke_listeners
          && a.fctx.has_on_leave_listener)))
  ∧ (∀ r, a.fctx.replacement_function = some r →
      (_gum_function_context_begin_invocation a).next_hop = r) := by
  cases hrepl : a.fctx.replacement_function with
  | none =>
    refine ⟨?_, ?_, ?_, ?_⟩ <;>
      simp [_gum_function_context_begin_invocation, h1, h2, hrepl]
    · by_cases hs : a.selected_thread_id = 0
      · simp [hs]
      · by_cases hc : a.current_thread_id = a.selected_thread_id
        · simp [hs, hc]
        · have hcb : (a.current_thread_id == a.selected_thread_id) = false :=
            beq_eq_false_iff_ne.mpr hc
          have hsb : (a.selected_thread_id == 0) = false :=
            beq_eq_false_iff_ne.mpr hs
          rw [hcb, hsb]
          simp only [Bool.false_or, Bool.false_and]
          rw [if_neg (by tauto)]
          simp [hs]
  | some r =>
    refine ⟨?_, ?_, ?_, ?_⟩ <;>
      simp [_gum_function_context_begin_invocation, h1, h2, hrepl]
    · by_cases hs : a.selected_thread_id = 0
      · simp [hs]
      · by_cases hc : a.current_thread_id = a.selected_thread_id
        · simp [hs, hc]
        · have hcb : (a.current_thread_id == a.selected_thread_id) = false :=
            beq_eq_false_iff_ne.mpr hc
          have hsb : (a.selected_thread_id == 0) = false :=
            beq_eq_false_iff_ne.mpr hs
          rw [hcb, hsb]
          simp only [Bool.false_or, Bool.false_and]
          rw [if_neg (by tauto)]
          simp [hs]

/-- C2: when the call is bypassed neither by the TLS guard nor by the
replacement-reentry check, listeners are dispatched iff the thread matches
the selection (or none is selected) and the ignore level is at most zero;
and the on-leave trampoline is installed iff a replacement is present or
listeners are dispatched and the context has an on-leave listener. -/
theorem begin_invocation_dispatch_conditions (a : BeginArgs)
    (h1 : a.guard_held = false)
    (h2 : replacementReentry a.stack a.fctx.function_address = false) :
    ((_gum_function_context_begin_invocation a).invoke_listeners = true ↔
      ((a.selected_thread_id = 0 ∨ a.current_thread_id = a.selected_thread_id)
        ∧ a.ignore_level ≤ 0))
  ∧ ((_gum_function_context_begin_invocation a).will_trap_on_leave = true ↔
      (a.fctx.replacement_function ≠ none ∨
        ((_gum_function_context_begin_invocation a).invoke_listeners = true
          ∧ a.fctx.has_on_leave_listener = true))) := by
  obtain ⟨-, hinv, htrap, -⟩ := begin_invocation_normal_path a h1 h2
  constructor
  · rw [hinv]
    simp
  · rw [htrap]
    simp [Option.isSome_iff_ne_none]

/-- Witness for `begin_invocation_dispatch_conditions`: an unguarded call
with an empty stack, no thread selection and ignore level zero. -/
theorem begin_invocation_dispatch_conditions_witness :
    ({ fctx := sampleCtx, fctx_id := 0, guard_held := false, stack := [],
       ignore_level := 0, selected_thread_id := 0, current_thread_id := 5,
       caller_ret_addr := 1000 } : BeginArgs).guard_held = false
  ∧ (((_gum_function_context_begin_invocation
      { fctx := sampleCtx, fctx_id := 0, guard_held := false, stack := [],
        ignore_level := 0, selected_thread_id := 0, current_thread_id := 5,
        caller_ret_addr := 1000 }).invoke_listeners = true ↔
      (((0 : ThreadId) = 0 ∨ (5 : ThreadId) = 0) ∧ (0 : Int) ≤ 0))) := by
  refine ⟨rfl, ?_⟩
  have h := begin_invocation_dispatch_conditions
    { fctx := sampleCtx, fctx_id := 0, guard_held := false, stack := [],
      ignore_level := 0, selected_thread_id := 0, current_thread_id := 5,
      caller_ret_addr := 1000 } rfl rfl
  exact h.1

/-- C7: the per-thread ignore level is a counter: N increments undone by N
decrements; `maybe_unignore` decrements only a strictly positive level and
reports TRUE exactly then; on a non-bypassed hook entry with the thread
selection passing, listener dispatch is suppressed iff the level is
positive, while a present replacement is the next hop regardless of the
level. -/
theorem ignore_level_counter_spec :
    (∀ (c : InterceptorThreadContext) (n : Nat),
      gum_interceptor_unignore_current_thread^[n]
        (gum_interceptor_ignore_current_thread^[n] c) = c)
  ∧ (∀ c : InterceptorThreadContext,
      ((gum_interceptor_maybe_unignore_current_thread c).2 = true ↔ 0 < c.ignore_level)
      ∧ (gum_interceptor_maybe_unignore_current_thread c).1.ignore_level =
          (if 0 < c.ignore_level then c.ignore_level - 1 else c.ignore_level))
  ∧ (∀ a : BeginArgs, a.guard_held = false →
      replacementReentry a.stack a.fctx.function_address = false →
      (a.selected_thread_id = 0 ∨ a.current_thread_id = a.selected_thread_id) →
      ((_gum_function_context_begin_invocation a).invoke_listeners = false ↔
        0 < a.ignore_level))
  ∧ (∀ (a : BeginArgs) (r : Nat), a.guard_held = false →
      replacementReentry a.stack a.fctx.function_address = false →
      a.fctx.replacement_function = some r →
      (_gum_function_context_begin_invocation a).next_hop = r) := by
  refine ⟨?_, ?_, ?_, ?_⟩
  · have hinv : ∀ c : InterceptorThreadContext,
        gum_interceptor_unignore_current_thread
          (gum_interceptor_ignore_current_thread c) = c := by
      intro c
      simp [gum_interceptor_unignore_current_thread, gum_interceptor_ignore_current_thread]
    intro c n
    induction n generalizing c with
    | zero => rfl
    | succ k ih =>
      rw [Function.iterate_succ_apply' gum_interceptor_ignore_current_thread,
        Function.iterate_succ_apply gum_interceptor_unignore_current_thread,
        hinv, ih]
  · intro c
    by_cases h : c.ignore_level ≤ 0
    · have hn : ¬ (0 < c.ignore_level) := by omega
      simp [gum_interceptor_maybe_unignore_current_thread, h, hn]
    · have hp : 0 < c.ignore_level := by omega
      simp [gum_interceptor_maybe_unignore_current_thread, h, hp]
  · intro a h1 h2 hsel
    obtain ⟨-, hinv, -, -⟩ := begin_invocation_normal_path a h1 h2
    rw [hinv]
    have : (a.selected_thread_id == 0 || a.current_thread_id == a.selected_thread_id) = true := by
      rcases hsel with h | h <;> simp [h]
    rw [this]
    simp only [Bool.true_and, decide_eq_false_iff_not]
    constructor <;> omega
  · intro a r h1 h2 hrepl
    exact (begin_invocation_normal_path a h1 h2).2.2.2 r hrepl

/-- Witness for `ignore_level_counter_spec`: three increments and three
decrements restore a concrete thread context, `maybe_unignore` fires on a
positive level, suppression holds at level one, and a replacement is the
next hop at level one. -/
theorem ignore_level_counter_spec_witness :
    (gum_interceptor_unignore_current_thread^[3]
      (gum_interceptor_ignore_current_thread^[3]
        ({ ignore_level := 0, stack := [] } : InterceptorThreadContext)) =
      { ignore_level := 0, stack := [] })
  ∧ ((gum_interceptor_maybe_unignore_current_thread
      ({ ignore_level := 2, stack := [] } : InterceptorThreadContext)).2 = true ↔
      (0 : Int) < 2)
  ∧ ((_gum_function_context_begin_invocation
      { fctx := { sampleCtx with replacement_function := some 77 }, fctx_id := 0,
        guard_held := false, stack := [], ignore_level := 1,
        selected_thread_id := 0, current_thread_id := 5,
        caller_ret_addr := 1000 }).invoke_listeners = false ↔ (0 : Int) < 1)
  ∧ (_gum_function_context_begin_invocation
      { fctx := { sampleCtx with replacement_function := some 77 }, fctx_id := 0,
        guard_held := false, stack := [], ignore_level := 1,
        selected_thread_id := 0, current_thread_id := 5,
        caller_ret_addr := 1000 }).next_hop = 77 := by
  have h := ignore_level_counter_spec
  refine ⟨h.1 _ 3, (h.2.1 _).1, ?_, ?_⟩
  · exact h.2.2.1 _ rfl rfl (Or.inl rfl)
  · exact h.2.2.2 _ 77 rfl rfl rfl

/-- C8: the whole-stack translation returns the saved caller return address
of the first frame (scanning from index 0) whose context's on-leave
trampoline equals the given address, and the input unchanged when no frame
matches; the top-only variant behaves as the whole-stack scan restricted to
the top frame (so it is the input when the stack is empty or the top frame
does not match). -/
theorem invocation_stack_translate_spec (ctxs : CtxId → GumFunctionContext)
    (stack : List GumInvocationStackEntry) (return_address : Nat) :
    (gum_invocation_stack_translate ctxs stack return_address =
      ((stack.find? (fun e =>
          (ctxs e.function_ctx).on_leave_trampoline == return_address)).map
        (fun e => e.caller_ret_addr)).getD return_address)
  ∧ ((∀ e ∈ stack, (ctxs e.function_ctx).on_leave_trampoline ≠ return_address) →
      gum_invocation_stack_translate ctxs stack return_address = return_address)
  ∧ (_gum_interceptor_translate_top_return_address ctxs stack return_address =
      gum_invocation_stack_translate ctxs stack.getLast?.toList return_address) := by
  have hfind : gum_invocation_stack_translate ctxs stack return_address =
      ((stack.find? (fun e =>
          (ctxs e.function_ctx).on_leave_trampoline == return_address)).map
        (fun e => e.caller_ret_addr)).getD return_address := by
    induction stack with
    | nil => simp [gum_invocation_stack_translate]
    | cons e rest ih =>
      by_cases h : (ctxs e.function_ctx).on_leave_trampoline = return_address
      · simp [gum_invocation_stack_translate, List.find?, h]
      · have hb : ((ctxs e.function_ctx).on_leave_trampoline == return_address) = false :=
          beq_eq_false_iff_ne.mpr h
        simp [gum_invocation_stack_translate, List.find?, h, hb, ih]
  refine ⟨hfind, ?_, ?_⟩
  · intro hnone
    rw [hfind]
    have : stack.find? (fun e =>
        (ctxs e.function_ctx).on_leave_trampoline == return_address) = none := by
      rw [List.find?_eq_none]
      intro e he hbe
      exact hnone e he (by simpa using hbe)
    rw [this]
    rfl
  · cases hl : stack.getLast? with
    | none =>
      simp [_gum_interceptor_translate_top_return_address, hl,
        gum_invocation_stack_translate]
    | some e =>
      by_cases h : (ctxs e.function_ctx).on_leave_trampoline = return_address <;>
        simp [_gum_interceptor_translate_top_return_address, hl,
          gum_invocation_stack_translate, h]

/-- Sample shadow-stack frames for concrete instantiations. -/
def stackEntryA : GumInvocationStackEntry :=
  { function_ctx := 0, caller_ret_addr := 1234, invocation_function := 4096,
    calling_replacement := false }

/-- Second sample shadow-stack frame. -/
def stackEntryB : GumInvocationStackEntry :=
  { function_ctx := 4, caller_ret_addr := 20, invocation_function := 4096,
    calling_replacement := false }

/-- Witness for `invocation_stack_translate_spec`: a one-frame stack whose
frame does not match, so both helpers return the input unchanged. -/
theorem invocation_stack_translate_spec_witness :
    (∀ e ∈ [stackEntryA],
      (sampleHeap e.function_ctx).on_leave_trampoline ≠ 555)
  ∧ gum_invocation_stack_translate sampleHeap [stackEntryA] 555 = 555 := by
  refine ⟨?_, ?_⟩
  · intro e he
    simp only [List.mem_singleton] at he
    subst he
    decide
  · exact (invocation_stack_translate_spec sampleHeap [stackEntryA] 555).2.1
      (by
        intro e he
        simp only [List.mem_singleton] at he
        subst he
        decide)

/-- The decrement loop of `gum_interceptor_restore` subtracts, for each
context, the number of discarded frames that reference it. -/
theorem decUsageList_spec (es : List GumInvocationStackEntry) (usage : CtxId → Int)
    (c : CtxId) :
    decUsageList usage es c =
      usage c - ((es.filter (fun e => e.function_ctx == c)).length : Int) := by
  induction es generalizing usage with
  | nil => simp [decUsageList]
  | cons e rest ih =>
    by_cases h : e.function_ctx = c
    · have hb : (e.function_ctx == c) = true := beq_iff_eq.mpr h
      simp only [decUsageList, List.filter, hb, ih, List.length_cons]
      rw [if_pos h.symm]
      push_cast
      ring
    · have hb : (e.function_ctx == c) = false := beq_eq_false_iff_ne.mpr h
      simp only [decUsageList, List.filter, hb, ih]
      rw [if_neg (fun hcc => h hcc.symm)]

/-- C9: when the saved depth is at most the current depth, restore truncates
the shadow stack to the saved depth and decrements the usage counter of each
discarded frame's context exactly once (per discarded frame); saving and
immediately restoring leaves the stack and the usage counters unchanged. -/
theorem save_restore_spec (stack : List GumInvocationStackEntry)
    (usage : CtxId → Int) (s : Nat) (hs : s ≤ stack.length) :
    ((gum_interceptor_restore s stack usage).1 = stack.take s)
  ∧ (∀ c, (gum_interceptor_restore s stack usage).2 c =
      usage c - (((stack.drop s).filter (fun e => e.function_ctx == c)).length : Int))
  ∧ (gum_interceptor_restore (gum_interceptor_save stack) stack usage =
      (stack, usage)) := by
  refine ⟨?_, ?_, ?_⟩
  · by_cases h : stack.length = s
    · subst h
      simp [gum_interceptor_restore]
    · simp [gum_interceptor_restore, h]
  · intro c
    by_cases h : stack.length = s
    · subst h
      simp [gum_interceptor_restore]
    · simp only [gum_interceptor_restore, h, if_false]
      exact decUsageList_spec _ _ _
  · simp [gum_interceptor_restore, gum_interceptor_save]

/-- Witness for `save_restore_spec`: restoring depth 1 on a two-frame stack
drops the top frame and decrements its context's counter once. -/
theorem save_restore_spec_witness :
    (1 ≤ ([stackEntryA, stackEntryB] : List GumInvocationStackEntry).length)
  ∧ (gum_interceptor_restore 1 [stackEntryA, stackEntryB] (fun _ => 1)).2 4 = 0 := by
  refine ⟨by decide, ?_⟩
  have h := (save_restore_spec [stackEntryA, stackEntryB]
    (fun _ => 1) 1 (by decide)).2.1 4
  rw [h]
  decide

/-- Characterization of the destroy-task drain loop: released tasks are the
pending tasks whose context's counter is zero (in order); the others are
appended to the next transaction's queue, which is marked dirty exactly when
some task was requeued; level and update map are untouched. -/
theorem drainDestroyTasks_spec (usage : CtxId → Int) (tasks : List GumDestroyTask)
    (next : GumTransaction) :
    ((drainDestroyTasks usage tasks next).1 =
      tasks.filter (fun task => decide (usage task.ctx = 0)))
  ∧ ((drainDestroyTasks usage tasks next).2.pending_destroy_tasks =
      next.pending_destroy_tasks ++
        tasks.filter (fun task => !(decide (usage task.ctx = 0))))
  ∧ ((drainDestroyTasks usage tasks next).2.is_dirty =
      (next.is_dirty || tasks.any (fun task => !(decide (usage task.ctx = 0)))))
  ∧ ((drainDestroyTasks usage tasks next).2.level = next.level)
  ∧ ((drainDestroyTasks usage tasks next).2.pending_update_tasks =
      next.pending_update_tasks) := by
  induction tasks generalizing next with
  | nil => simp [drainDestroyTasks]
  | cons task rest ih =>
    by_cases h : usage task.ctx = 0
    · simp [drainDestroyTasks, h, ih]
    · obtain ⟨ih1, ih2, ih3, ih4, ih5⟩ := ih
        { next with
          is_dirty := true
          pending_destroy_tasks := next.pending_destroy_tasks ++ [task] }
      refine ⟨?_, ?_, ?_, ?_, ?_⟩ <;>
        simp [drainDestroyTasks, h, ih1, ih2, ih3, ih4, ih5]

/-- Applying one update task only ever changes the `activated` flag of its
context; every other field of every context is untouched. -/
theorem applyUpdate_preserves (r : CtxId → GumFunctionContext) (task : GumUpdateTask)
    (c : CtxId) :
    ((applyUpdate r task c).function_address = (r c).function_address)
  ∧ ((applyUpdate r task c).type = (r c).type)
  ∧ ((applyUpdate r task c).listener_entries = (r c).listener_entries)
  ∧ ((applyUpdate r task c).replacement_function = (r c).replacement_function)
  ∧ ((applyUpdate r task c).replacement_data = (r c).replacement_data)
  ∧ ((applyUpdate r task c).has_on_leave_listener = (r c).has_on_leave_listener)
  ∧ ((applyUpdate r task c).destroyed = (r c).destroyed)
  ∧ ((applyUpdate r task c).trampoline_usage_counter = (r c).trampoline_usage_counter)
  ∧ ((applyUpdate r task c).on_invoke_trampoline = (r c).on_invoke_trampoline)
  ∧ ((applyUpdate r task c).on_leave_trampoline = (r c).on_leave_trampoline)
  ∧ ((applyUpdate r task c).overwritten_prologue_len = (r c).overwritten_prologue_len) := by
  cases task with
  | mk tctx func =>
    cases func with
    | activate =>
      by_cases hd : (r tctx).destroyed
      · simp [applyUpdate, hd]
      · by_cases hc : c = tctx <;> simp [applyUpdate, hd, setCtx, hc]
    | deactivate =>
      by_cases hc : c = tctx <;> simp [applyUpdate, setCtx, hc]

/-- Lemma: `runTasks` only ever changes `activated` flags. -/
theorem runTasks_preserves (tasks : List GumUpdateTask)
    (r : CtxId → GumFunctionContext) (c : CtxId) :
    ((runTasks r tasks c).function_address = (r c).function_address)
  ∧ ((runTasks r tasks c).type = (r c).type)
  ∧ ((runTasks r tasks c).listener_entries = (r c).listener_entries)
  ∧ ((runTasks r tasks c).replacement_function = (r c).replacement_function)
  ∧ ((runTasks r tasks c).replacement_data = (r c).replacement_data)
  ∧ ((runTasks r tasks c).has_on_leave_listener = (r c).has_on_leave_listener)
  ∧ ((runTasks r tasks c).destroyed = (r c).destroyed)
  ∧ ((runTasks r tasks c).trampoline_usage_counter = (r c).trampoline_usage_counter)
  ∧ ((runTasks r tasks c).on_invoke_trampoline = (r c).on_invoke_trampoline)
  ∧ ((runTasks r tasks c).on_leave_trampoline = (r c).on_leave_trampoline)
  ∧ ((runTasks r tasks c).overwritten_prologue_len = (r c).overwritten_prologue_len) := by
  induction tasks generalizing r with
  | nil => simp [runTasks]
  | cons task rest ih =>
    obtain ⟨p1, p2, p3, p4, p5, p6, p7, p8, p9, p10, p11⟩ :=
      applyUpdate_preserves r task c
    obtain ⟨q1, q2, q3, q4, q5, q6, q7, q8, q9, q10, q11⟩ := ih (applyUpdate r task)
    exact ⟨q1.trans p1, q2.trans p2, q3.trans p3, q4.trans p4, q5.trans p5,
      q6.trans p6, q7.trans p7, q8.trans p8, q9.trans p9, q10.trans p10,
      q11.trans p11⟩

/-- The commit's update phase only ever changes `activated` flags. -/
theorem runUpdatesHeap_preserves (pages : List Addr)
    (m : List (Addr × List GumUpdateTask)) (r : CtxId → GumFunctionContext) (c : CtxId) :
    ((runUpdatesHeap r m pages c).function_address = (r c).function_address)
  ∧ ((runUpdatesHeap r m pages c).type = (r c).type)
  ∧ ((runUpdatesHeap r m pages c).listener_entries = (r c).listener_entries)
  ∧ ((runUpdatesHeap r m pages c).replacement_function = (r c).replacement_function)
  ∧ ((runUpdatesHeap r m pages c).replacement_data = (r c).replacement_data)
  ∧ ((runUpdatesHeap r m pages c).has_on_leave_listener = (r c).has_on_leave_listener)
  ∧ ((runUpdatesHeap r m pages c).destroyed = (r c).destroyed)
  ∧ ((runUpdatesHeap r m pages c).trampoline_usage_counter =
      (r c).trampoline_usage_counter)
  ∧ ((runUpdatesHeap r m pages c).on_invoke_trampoline = (r c).on_invoke_trampoline)
  ∧ ((runUpdatesHeap r m pages c).on_leave_trampoline = (r c).on_leave_trampoline)
  ∧ ((runUpdatesHeap r m pages c).overwritten_prologue_len =
      (r c).overwritten_prologue_len) := by
  induction pages generalizing r with
  | nil => simp [runUpdatesHeap]
  | cons page rest ih =>
    obtain ⟨p1, p2, p3, p4, p5, p6, p7, p8, p9, p10, p11⟩ :=
      runTasks_preserves ((List.lookup page m).getD []) r c
    obtain ⟨q1, q2, q3, q4, q5, q6, q7, q8, q9, q10, q11⟩ :=
      ih (runTasks r ((List.lookup page m).getD []))
    exact ⟨q1.trans p1, q2.trans p2, q3.trans p3, q4.trans p4, q5.trans p5,
      q6.trans p6, q7.trans p7, q8.trans p8, q9.trans p9, q10.trans p10,
      q11.trans p11⟩

/-- Shared characterization of the commit's destroy drain, used by the
drain and flush results below. -/
theorem transaction_end_drain_lemma (s : GumInterceptorState)
    (hl : s.current_transaction.level = 1)
    (hd : s.current_transaction.is_dirty = true) :
    ((gum_interceptor_transaction_end s).released =
      s.current_transaction.pending_destroy_tasks.filter
        (fun task => decide ((s.ctxs task.ctx).trampoline_usage_counter = 0)))
  ∧ ((gum_interceptor_transaction_end s).state.current_transaction.pending_destroy_tasks =
      s.current_transaction.pending_destroy_tasks.filter
        (fun task => !(decide ((s.ctxs task.ctx).trampoline_usage_counter = 0))))
  ∧ ((gum_interceptor_transaction_end s).state.current_transaction.is_dirty = true ↔
      ∃ task ∈ s.current_transaction.pending_destroy_tasks,
        (s.ctxs task.ctx).trampoline_usage_counter ≠ 0) := by
  by_cases hemp : s.current_transaction.pending_destroy_tasks = [] ∧
      s.current_transaction.pending_update_tasks = []
  · obtain ⟨he1, he2⟩ := hemp
    refine ⟨?_, ?_, ?_⟩ <;>
      simp [gum_interceptor_transaction_end, hl, hd, he1, he2]
  · have husage : (fun c => (runUpdatesHeap s.ctxs
        s.current_transaction.pending_update_tasks
        (sortPages (s.current_transaction.pending_update_tasks.map Prod.fst))
          c).trampoline_usage_counter) =
        (fun c => (s.ctxs c).trampoline_usage_counter) :=
      funext fun c => (runUpdatesHeap_preserves _ _ _ c).2.2.2.2.2.2.2.1
    obtain ⟨d1, d2, d3, -, -⟩ := drainDestroyTasks_spec
      (fun c => (s.ctxs c).trampoline_usage_counter)
      s.current_transaction.pending_destroy_tasks gum_interceptor_transaction_init
    simp only [gum_interceptor_transaction_init] at d1 d2 d3
    refine ⟨?_, ?_, ?_⟩ <;>
      simp [gum_interceptor_transaction_end, hl, hd, hemp, husage, d1, d2, d3,
        gum_interceptor_transaction_init, List.any_eq_true]

/-- C1: during an outermost dirty commit, exactly the pending destroy tasks
whose context's `trampoline_usage_counter` is zero at drain time have their
release callbacks invoked (in order); every other task is pushed onto the
next transaction's destroy queue, and that transaction is dirty exactly when
some task was requeued — so no release callback runs for a context whose
usage counter is positive. -/
theorem destroy_drain_usage_gate (s : GumInterceptorState)
    (hl : s.current_transaction.level = 1)
    (hd : s.current_transaction.is_dirty = true) :
    ((gum_interceptor_transaction_end s).released =
      s.current_transaction.pending_destroy_tasks.filter
        (fun task => decide ((s.ctxs task.ctx).trampoline_usage_counter = 0)))
  ∧ ((gum_interceptor_transaction_end s).state.current_transaction.pending_destroy_tasks =
      s.current_transaction.pending_destroy_tasks.filter
        (fun task => !(decide ((s.ctxs task.ctx).trampoline_usage_counter = 0))))
  ∧ ((gum_interceptor_transaction_end s).state.current_transaction.is_dirty = true ↔
      ∃ task ∈ s.current_transaction.pending_destroy_tasks,
        (s.ctxs task.ctx).trampoline_usage_counter ≠ 0) :=
  transaction_end_drain_lemma s hl hd

/-- Context record with a positive usage counter, for concrete drains. -/
def ctxBusy : GumFunctionContext :=
  { sampleCtx with trampoline_usage_counter := 1 }

/-- Concrete heap: context 1 is busy, everything else idle. -/
def heapC1 : CtxId → GumFunctionContext :=
  fun c => if c = 1 then ctxBusy else sampleCtx

/-- Concrete interceptor state at commit: two pending destroy tasks, one on
an idle context and one on a busy context. -/
def stateC1 : GumInterceptorState :=
  { next_ctx_id := 2
    ctxs := heapC1
    function_by_address := []
    selected_thread_id := 0
    current_transaction :=
      { is_dirty := true
        level := 1
        pending_destroy_tasks :=
          [{ ctx := 0, data := NotifyData.performDestroy 0 },
            { ctx := 1, data := NotifyData.performDestroy 1 }]
        pending_update_tasks := [] } }

/-- Witness for `destroy_drain_usage_gate`: the idle context's task is
released, the busy context's task is requeued. -/
theorem destroy_drain_usage_gate_witness :
    stateC1.current_transaction.level = 1
  ∧ (gum_interceptor_transaction_end stateC1).released =
      [{ ctx := 0, data := NotifyData.performDestroy 0 }]
  ∧ (gum_interceptor_transaction_end stateC1).state.current_transaction.pending_destroy_tasks =
      [{ ctx := 1, data := NotifyData.performDestroy 1 }] := by
  have h := destroy_drain_usage_gate stateC1 rfl rfl
  refine ⟨rfl, ?_, ?_⟩
  · rw [h.1]
    decide
  · rw [h.2.1]
    decide

/-- C10: at a nonzero transaction level, flush does nothing (no transaction
is begun or ended, all pending tasks stay put) and returns FALSE; at level
zero it returns TRUE iff the pending destroy queue is empty after the
begin/end drain, which (when the transaction was dirty) holds iff every
pending destroy task's context had a zero usage counter. -/
theorem flush_spec (s : GumInterceptorState) :
    (s.current_transaction.level ≠ 0 → gum_interceptor_flush s = (s, false))
  ∧ (s.current_transaction.level = 0 →
      ((gum_interceptor_flush s).2 = true ↔
        (gum_interceptor_flush s).1.current_transaction.pending_destroy_tasks = []))
  ∧ (s.current_transaction.level = 0 → s.current_transaction.is_dirty = true →
      ((gum_interceptor_flush s).2 = true ↔
        ∀ task ∈ s.current_transaction.pending_destroy_tasks,
          (s.ctxs task.ctx).trampoline_usage_counter = 0)) := by
  refine ⟨?_, ?_, ?_⟩
  · intro h
    simp [gum_interceptor_flush, h]
  · intro h
    simp [gum_interceptor_flush, h]
  · intro h0 hd
    have hl1 : (gum_interceptor_transaction_begin s).current_transaction.level = 1 := by
      simp [gum_interceptor_transaction_begin, h0]
    have hd1 : (gum_interceptor_transaction_begin s).current_transaction.is_dirty = true := by
      simpa [gum_interceptor_transaction_begin] using hd
    have hdrain := (transaction_end_drain_lemma _ hl1 hd1).2.1
    have hpend : (gum_interceptor_transaction_begin s).current_transaction.pending_destroy_tasks =
        s.current_transaction.pending_destroy_tasks := rfl
    have hctxs : (gum_interceptor_transaction_begin s).ctxs = s.ctxs := rfl
    simp only [gum_interceptor_flush, h0, if_pos, decide_eq_true_eq]
    rw [hdrain, hpend, hctxs]
    rw [List.filter_eq_nil_iff]
    constructor
    · intro hall task htask
      have := hall task htask
      simpa using this
    · intro hall task htask
      simp [hall task htask]

/-- Concrete state at level zero with a dirty transaction and one pending
destroy task on an idle context. -/
def stateFlush : GumInterceptorState :=
  { next_ctx_id := 1
    ctxs := fun _ => sampleCtx
    function_by_address := []
    selected_thread_id := 0
    current_transaction :=
      { is_dirty := true
        level := 0
        pending_destroy_tasks := [{ ctx := 0, data := NotifyData.performDestroy 0 }]
        pending_update_tasks := [] } }

/-- Concrete state at level two, where flush must do nothing. -/
def stateBusyLevel : GumInterceptorState :=
  { next_ctx_id := 0
    ctxs := fun _ => sampleCtx
    function_by_address := []
    selected_thread_id := 0
    current_transaction :=
      { is_dirty := true
        level := 2
        pending_destroy_tasks := [{ ctx := 0, data := NotifyData.performDestroy 0 }]
        pending_update_tasks := [] } }

/-- Witness for `flush_spec`: at level two flush returns FALSE leaving state
untouched; at level zero with an idle pending destroy the flush drains it
and returns TRUE. -/
theorem flush_spec_witness :
    (stateBusyLevel.current_transaction.level ≠ 0
      ∧ gum_interceptor_flush stateBusyLevel = (stateBusyLevel, false))
  ∧ (stateFlush.current_transaction.level = 0
      ∧ (gum_interceptor_flush stateFlush).2 = true) := by
  constructor
  · exact ⟨by decide, (flush_spec stateBusyLevel).1 (by decide)⟩
  · refine ⟨rfl, ?_⟩
    have h := (flush_spec stateFlush).2.2 rfl rfl
    rw [h]
    intro task htask
    simp only [stateFlush, List.mem_singleton] at htask
    subst htask
    decide

/-- Concrete state at commit with update tasks on two pages: page
`2 ^ 32` (context 1) scheduled first, page `0` (context 0) second. -/
def stateC3 : GumInterceptorState :=
  { next_ctx_id := 2
    ctxs := fun _ => sampleCtx
    function_by_address := []
    selected_thread_id := 0
    current_transaction :=
      { is_dirty := true
        level := 1
        pending_destroy_tasks := []
        pending_update_tasks :=
          [(2 ^ 32, [{ ctx := 1, func := GumUpdateFunc.activate }]),
            (0, [{ ctx := 0, func := GumUpdateFunc.activate }])] } }

/-- C3 (code bug): `gum_page_address_compare` truncates the 64-bit address
difference to a signed 32-bit `gint`, so it does not order pages by address:
it reports page `2 ^ 31` below page `0` (negative result for a larger
address) and pages `2 ^ 32` and `0` as equal; consequently a commit holding
tasks for pages `2 ^ 32` and `0`, scheduled in that order, executes the
higher page's task before the lower page's, against the ascending-page-order
guarantee (and against the comparator's own documentation comment). -/
theorem page_order_compare_truncates :
    (gum_page_address_compare (2 ^ 31) 0 < 0 ∧ (0 : Addr) < 2 ^ 31)
  ∧ (gum_page_address_compare (2 ^ 32) 0 = 0 ∧ (0 : Addr) ≠ 2 ^ 32)
  ∧ sortPages [2 ^ 32, 0] = [2 ^ 32, 0]
  ∧ (gum_interceptor_transaction_end stateC3).update_trace =
      [{ ctx := 1, func := GumUpdateFunc.activate },
        { ctx := 0, func := GumUpdateFunc.activate }] := by
  refine ⟨⟨?_, ?_⟩, ⟨?_, ?_⟩, ?_, ?_⟩ <;> decide

/-- Instrumenting an address that already has a context of the requested
type returns that context and leaves the state alone. -/
theorem instrument_existing_same (env : GumEnv) (s : GumInterceptorState)
    (ty : GumInterceptorType) (addr : Addr) (cid : CtxId)
    (h : List.lookup addr s.function_by_address = some cid)
    (ht : (s.ctxs cid).type = ty) :
    gum_interceptor_instrument env s ty addr = (Except.ok cid, s) := by
  simp [gum_interceptor_instrument, h, ht]

/-- Instrumenting an address bound as the other kind fails with wrong-type. -/
theorem instrument_existing_wrong (env : GumEnv) (s : GumInterceptorState)
    (ty : GumInterceptorType) (addr : Addr) (cid : CtxId)
    (h : List.lookup addr s.function_by_address = some cid)
    (ht : (s.ctxs cid).type ≠ ty) :
    gum_interceptor_instrument env s ty addr =
      (Except.error GumInstrumentationError.wrong_type, s) := by
  simp [gum_interceptor_instrument, h, ht]

/-- Fresh instrumentation succeeds when the backend step succeeds. -/
theorem instrument_fresh_ok (env : GumEnv) (s : GumInterceptorState)
    (ty : GumInterceptorType) (addr : Addr)
    (h : List.lookup addr s.function_by_address = none)
    (hok : (if env.code_signing_required then env.claim_grafted addr
        else env.create_trampoline addr) = true) :
    gum_interceptor_instrument env s ty addr =
      (Except.ok s.next_ctx_id, instrumentFreshState env s ty addr) := by
  simp only [gum_interceptor_instrument, h]
  rw [hok]
  simp

/-- Under signing policy, a fresh instrumentation with no claimable grafted
trampoline fails with policy-violation. -/
theorem instrument_fresh_policy (env : GumEnv) (s : GumInterceptorState)
    (ty : GumInterceptorType) (addr : Addr)
    (h : List.lookup addr s.function_by_address = none)
    (hp : env.code_signing_required = true)
    (hc : env.claim_grafted addr = false) :
    gum_interceptor_instrument env s ty addr =
      (Except.error GumInstrumentationError.policy_violation, s) := by
  simp [gum_interceptor_instrument, h, hp, hc]

/-- Without signing policy, a fresh instrumentation the backend refuses
fails with wrong-signature. -/
theorem instrument_fresh_sig (env : GumEnv) (s : GumInterceptorState)
    (ty : GumInterceptorType) (addr : Addr)
    (h : List.lookup addr s.function_by_address = none)
    (hp : env.code_signing_required = false)
    (hc : env.create_trampoline addr = false) :
    gum_interceptor_instrument env s ty addr =
      (Except.error GumInstrumentationError.wrong_signature, s) := by
  simp [gum_interceptor_instrument, h, hp, hc]

/-- Lemma: `gum_interceptor_transaction_end` never changes the address map, the
allocation counter, or any context field other than `activated`. -/
theorem transaction_end_preserves (s : GumInterceptorState) :
    ((gum_interceptor_transaction_end s).state.function_by_address =
      s.function_by_address)
  ∧ ((gum_interceptor_transaction_end s).state.next_ctx_id = s.next_ctx_id)
  ∧ (∀ c, (((gum_interceptor_transaction_end s).state.ctxs c).listener_entries =
        (s.ctxs c).listener_entries)
      ∧ (((gum_interceptor_transaction_end s).state.ctxs c).replacement_function =
        (s.ctxs c).replacement_function)
      ∧ (((gum_interceptor_transaction_end s).state.ctxs c).replacement_data =
        (s.ctxs c).replacement_data)
      ∧ (((gum_interceptor_transaction_end s).state.ctxs c).has_on_leave_listener =
        (s.ctxs c).has_on_leave_listener)
      ∧ (((gum_interceptor_transaction_end s).state.ctxs c).type = (s.ctxs c).type)
      ∧ (((gum_interceptor_transaction_end s).state.ctxs c).function_address =
        (s.ctxs c).function_address)
      ∧ (((gum_interceptor_transaction_end s).state.ctxs c).on_invoke_trampoline =
        (s.ctxs c).on_invoke_trampoline)
      ∧ (((gum_interceptor_transaction_end s).state.ctxs c).trampoline_usage_counter =
        (s.ctxs c).trampoline_usage_counter)) := by
  simp only [gum_interceptor_transaction_end]
  split
  · exact ⟨rfl, rfl, fun c => ⟨rfl, rfl, rfl, rfl, rfl, rfl, rfl, rfl⟩⟩
  · split
    · exact ⟨rfl, rfl, fun c => ⟨rfl, rfl, rfl, rfl, rfl, rfl, rfl, rfl⟩⟩
    · split
      · exact ⟨rfl, rfl, fun c => ⟨rfl, rfl, rfl, rfl, rfl, rfl, rfl, rfl⟩⟩
      · refine ⟨rfl, rfl, fun c => ?_⟩
        obtain ⟨p1, p2, p3, p4, p5, p6, p7, p8, p9, p10, p11⟩ :=
          runUpdatesHeap_preserves
            (sortPages (s.current_transaction.pending_update_tasks.map Prod.fst))
            s.current_transaction.pending_update_tasks s.ctxs c
        exact ⟨p3, p4, p5, p6, p2, p1, p9, p8⟩

/-- C4: attach on an address whose resolved context already holds the
listener reports already-attached and leaves the listener list unchanged;
otherwise, when instrumentation succeeds, it appends a new listener entry
and reports ok; it reports wrong-type exactly when the resolved address has
a context of the other kind, wrong-signature when the backend refuses to
create a trampoline, and policy-violation when signing policy is in force
and no grafted trampoline can be claimed. -/
theorem attach_result_spec (env : GumEnv) (fuel : Nat) (s : GumInterceptorState)
    (fa : Addr) (l : ListenerId) (iface : ListenerId → ListenerIface) (fd : Nat)
    (addr : Addr)
    (haddr : gum_interceptor_resolve env s.function_by_address fuel fa = addr) :
    (∀ cid, List.lookup addr s.function_by_address = some cid →
      (s.ctxs cid).type ≠ GumInterceptorType.default →
      (gum_interceptor_attach env fuel s fa l iface fd).1 = GumAttachReturn.wrong_type)
  ∧ (∀ cid, List.lookup addr s.function_by_address = some cid →
      (s.ctxs cid).type = GumInterceptorType.default →
      gum_function_context_has_listener (s.ctxs cid) l = true →
      (gum_interceptor_attach env fuel s fa l iface fd).1 =
          GumAttachReturn.already_attached
        ∧ ((gum_interceptor_attach env fuel s fa l iface fd).2.ctxs cid).listener_entries =
          (s.ctxs cid).listener_entries)
  ∧ (∀ cid, List.lookup addr s.function_by_address = some cid →
      (s.ctxs cid).type = GumInterceptorType.default →
      gum_function_context_has_listener (s.ctxs cid) l = false →
      (gum_interceptor_attach env fuel s fa l iface fd).1 = GumAttachReturn.ok
        ∧ ((gum_interceptor_attach env fuel s fa l iface fd).2.ctxs cid).listener_entries =
          ((s.ctxs cid).listener_entries.filterMap id).map some ++
            [some { listener_instance := l, function_data := fd,
                    has_on_enter := (iface l).has_on_enter,
                    has_on_leave := (iface l).has_on_leave }])
  ∧ (List.lookup addr s.function_by_address = none →
      env.code_signing_required = true → env.claim_grafted addr = false →
      (gum_interceptor_attach env fuel s fa l iface fd).1 =
        GumAttachReturn.policy_violation)
  ∧ (List.lookup addr s.function_by_address = none →
      env.code_signing_required = false → env.create_trampoline addr = false →
      (gum_interceptor_attach env fuel s fa l iface fd).1 =
        GumAttachReturn.wrong_signature)
  ∧ (List.lookup addr s.function_by_address = none →
      (if env.code_signing_required then env.claim_grafted addr
        else env.create_trampoline addr) = true →
      (gum_interceptor_attach env fuel s fa l iface fd).1 = GumAttachReturn.ok
        ∧ ((gum_interceptor_attach env fuel s fa l iface
            fd).2.ctxs s.next_ctx_id).listener_entries =
          [some { listener_instance := l, function_data := fd,
                  has_on_enter := (iface l).has_on_enter,
                  has_on_leave := (iface l).has_on_leave }])
  ∧ ((gum_interceptor_attach env fuel s fa l iface fd).1 = GumAttachReturn.wrong_type →
      ∃ cid, List.lookup addr s.function_by_address = some cid ∧
        (s.ctxs cid).type ≠ GumInterceptorType.default) := by
  have hXm : (markDirty (gum_interceptor_transaction_begin s)).function_by_address =
      s.function_by_address := rfl
  have hXc : (markDirty (gum_interceptor_transaction_begin s)).ctxs = s.ctxs := rfl
  have case1 : ∀ cid, List.lookup addr s.function_by_address = some cid →
      (s.ctxs cid).type ≠ GumInterceptorType.default →
      (gum_interceptor_attach env fuel s fa l iface fd).1 =
        GumAttachReturn.wrong_type := by
    intro cid hcid ht
    simp only [gum_interceptor_attach, hXm, haddr]
    rw [instrument_existing_wrong env (markDirty (gum_interceptor_transaction_begin s)) GumInterceptorType.default addr cid hcid ht]
  have case2 : ∀ cid, List.lookup addr s.function_by_address = some cid →
      (s.ctxs cid).type = GumInterceptorType.default →
      gum_function_context_has_listener (s.ctxs cid) l = true →
      (gum_interceptor_attach env fuel s fa l iface fd).1 =
          GumAttachReturn.already_attached
        ∧ ((gum_interceptor_attach env fuel s fa l iface fd).2.ctxs cid).listener_entries =
          (s.ctxs cid).listener_entries := by
    intro cid hcid ht hl'
    have heq : gum_interceptor_attach env fuel s fa l iface fd =
        (GumAttachReturn.already_attached,
          (gum_interceptor_transaction_end
            (markDirty (gum_interceptor_transaction_begin s))).state) := by
      simp only [gum_interceptor_attach, hXm, haddr]
      rw [instrument_existing_same env (markDirty (gum_interceptor_transaction_begin s)) GumInterceptorType.default addr cid hcid ht]
      have hl2 : gum_function_context_has_listener
          ((markDirty (gum_interceptor_transaction_begin s)).ctxs cid) l = true := hl'
      simp [hl2]
    rw [heq]
    refine ⟨rfl, ?_⟩
    exact ((transaction_end_preserves
      (markDirty (gum_interceptor_transaction_begin s))).2.2 cid).1
  have case3 : ∀ cid, List.lookup addr s.function_by_address = some cid →
      (s.ctxs cid).type = GumInterceptorType.default →
      gum_function_context_has_listener (s.ctxs cid) l = false →
      (gum_interceptor_attach env fuel s fa l iface fd).1 = GumAttachReturn.ok
        ∧ ((gum_interceptor_attach env fuel s fa l iface fd).2.ctxs cid).listener_entries =
          ((s.ctxs cid).listener_entries.filterMap id).map some ++
            [some { listener_instance := l, function_data := fd,
                    has_on_enter := (iface l).has_on_enter,
                    has_on_leave := (iface l).has_on_leave }] := by
    intro cid hcid ht hl'
    have heq : gum_interceptor_attach env fuel s fa l iface fd =
        (GumAttachReturn.ok,
          (gum_interceptor_transaction_end
            { markDirty (gum_interceptor_transaction_begin s) with
              ctxs := setCtx s.ctxs cid
                (gum_function_context_add_listener iface (s.ctxs cid) cid l fd
                  (markDirty (gum_interceptor_transaction_begin s)).current_transaction).1
              current_transaction :=
                (gum_function_context_add_listener iface (s.ctxs cid) cid l fd
                  (markDirty (gum_interceptor_transaction_begin s)).current_transaction).2
              }).state) := by
      simp only [gum_interceptor_attach, hXm, haddr]
      rw [instrument_existing_same env (markDirty (gum_interceptor_transaction_begin s)) GumInterceptorType.default addr cid hcid ht]
      have hl2 : gum_function_context_has_listener
          ((markDirty (gum_interceptor_transaction_begin s)).ctxs cid) l = false := hl'
      simp only [hl2, Bool.false_eq_true, if_false]
      rfl
    rw [heq]
    refine ⟨rfl, ?_⟩
    have hp := ((transaction_end_preserves
      { markDirty (gum_interceptor_transaction_begin s) with
        ctxs := setCtx s.ctxs cid
          (gum_function_context_add_listener iface (s.ctxs cid) cid l fd
            (markDirty (gum_interceptor_transaction_begin s)).current_transaction).1
        current_transaction :=
          (gum_function_context_add_listener iface (s.ctxs cid) cid l fd
            (markDirty (gum_interceptor_transaction_begin s)).current_transaction).2
        }).2.2 cid).1
    rw [hp]
    simp only [setCtx, if_pos rfl]
    exact (listener_snapshot_and_on_leave_flag iface (s.ctxs cid) cid l fd _).1
  have case4 : List.lookup addr s.function_by_address = none →
      env.code_signing_required = true → env.claim_grafted addr = false →
      (gum_interceptor_attach env fuel s fa l iface fd).1 =
        GumAttachReturn.policy_violation := by
    intro hnone hp hc
    simp only [gum_interceptor_attach, hXm, haddr]
    rw [instrument_fresh_policy env (markDirty (gum_interceptor_transaction_begin s)) GumInterceptorType.default addr hnone hp hc]
  have case5 : List.lookup addr s.function_by_address = none →
      env.code_signing_required = false → env.create_trampoline addr = false →
      (gum_interceptor_attach env fuel s fa l iface fd).1 =
        GumAttachReturn.wrong_signature := by
    intro hnone hp hc
    simp only [gum_interceptor_attach, hXm, haddr]
    rw [instrument_fresh_sig env (markDirty (gum_interceptor_transaction_begin s)) GumInterceptorType.default addr hnone hp hc]
  have case6 : List.lookup addr s.function_by_address = none →
      (if env.code_signing_required then env.claim_grafted addr
        else env.create_trampoline addr) = true →
      (gum_interceptor_attach env fuel s fa l iface fd).1 = GumAttachReturn.ok
        ∧ ((gum_interceptor_attach env fuel s fa l iface
            fd).2.ctxs s.next_ctx_id).listener_entries =
          [some { listener_instance := l, function_data := fd,
                  has_on_enter := (iface l).has_on_enter,
                  has_on_leave := (iface l).has_on_leave }] := by
    intro hnone hok
    have hfresh : gum_function_context_has_listener
        ((instrumentFreshState env (markDirty (gum_interceptor_transaction_begin s))
          GumInterceptorType.default addr).ctxs
            (markDirty (gum_interceptor_transaction_begin s)).next_ctx_id) l = false := by
      simp [instrumentFreshState, setCtx, instrumentFreshCtx,
        gum_function_context_new, gum_function_context_has_listener, findListenerSlot]
    have heq : gum_interceptor_attach env fuel s fa l iface fd =
        (GumAttachReturn.ok,
          (gum_interceptor_transaction_end
            { instrumentFreshState env (markDirty (gum_interceptor_transaction_begin s))
                GumInterceptorType.default addr with
              ctxs := setCtx (instrumentFreshState env
                  (markDirty (gum_interceptor_transaction_begin s))
                  GumInterceptorType.default addr).ctxs s.next_ctx_id
                (gum_function_context_add_listener iface
                  ((instrumentFreshState env (markDirty (gum_interceptor_transaction_begin s))
                    GumInterceptorType.default addr).ctxs s.next_ctx_id)
                  s.next_ctx_id l fd
                  (instrumentFreshState env (markDirty (gum_interceptor_transaction_begin s))
                    GumInterceptorType.default addr).current_transaction).1
              current_transaction :=
                (gum_function_context_add_listener iface
                  ((instrumentFreshState env (markDirty (gum_interceptor_transaction_begin s))
                    GumInterceptorType.default addr).ctxs s.next_ctx_id)
                  s.next_ctx_id l fd
                  (instrumentFreshState env (markDirty (gum_interceptor_transaction_begin s))
                    GumInterceptorType.default addr).current_transaction).2
              }).state) := by
      simp only [gum_interceptor_attach, hXm, haddr]
      rw [instrument_fresh_ok env (markDirty (gum_interceptor_transaction_begin s)) GumInterceptorType.default addr hnone hok]
      simp only [hfresh, Bool.false_eq_true, if_false]
      rfl
    rw [heq]
    refine ⟨rfl, ?_⟩
    rw [((transaction_end_preserves _).2.2 s.next_ctx_id).1]
    simp only [setCtx, eq_self_iff_true, if_true]
    have hadd := (listener_snapshot_and_on_leave_flag iface
      ((instrumentFreshState env (markDirty (gum_interceptor_transaction_begin s))
        GumInterceptorType.default addr).ctxs s.next_ctx_id)
      s.next_ctx_id l fd
      (instrumentFreshState env (markDirty (gum_interceptor_transaction_begin s))
        GumInterceptorType.default addr).current_transaction).1
    rw [hadd]
    have hentries : ((instrumentFreshState env
        (markDirty (gum_interceptor_transaction_begin s))
        GumInterceptorType.default addr).ctxs s.next_ctx_id).listener_entries = [] := by
      have hXn : (markDirty (gum_interceptor_transaction_begin s)).next_ctx_id =
          s.next_ctx_id := rfl
      simp [instrumentFreshState, setCtx, instrumentFreshCtx,
        gum_function_context_new, hXn]
    rw [hentries]
    simp
  refine ⟨case1, case2, case3, case4, case5, case6, ?_⟩
  · intro hwt
    cases hcid : List.lookup addr s.function_by_address with
    | some cid =>
      by_cases ht : (s.ctxs cid).type = GumInterceptorType.default
      · by_cases hl' : gum_function_context_has_listener (s.ctxs cid) l = true
        · rw [(case2 cid hcid ht hl').1] at hwt
          cases hwt
        · rw [(case3 cid hcid ht (by simpa using hl')).1] at hwt
          cases hwt
      · exact ⟨cid, rfl, ht⟩
    | none =>
      by_cases hp : env.code_signing_required = true
      · by_cases hc : env.claim_grafted addr = true
        · rw [(case6 hcid (by simp [hp, hc])).1] at hwt
          cases hwt
        · rw [case4 hcid hp (by simpa using hc)] at hwt
          cases hwt
      · by_cases hc : env.create_trampoline addr = true
        · rw [(case6 hcid (by simp [Bool.not_eq_true] at hp; simp [hp, hc])).1] at hwt
          cases hwt
        · rw [case5 hcid (by simpa using hp) (by simpa using hc)] at hwt
          cases hwt

/-- Concrete environment: no signing policy, trampoline creation succeeds. -/
def envA : GumEnv :=
  { page_size := 4096
    code_signing_required := false
    claim_grafted := fun _ => false
    create_trampoline := fun _ => true
    resolve_redirect := fun _ => none
    strip_code_pointer := fun a => a
    on_invoke_of := fun a => a + 100
    on_leave_of := fun a => a + 200
    prologue_len_of := fun _ => 4 }

/-- Context at address 4096 already holding `sampleEntry`. -/
def ctxAttached : GumFunctionContext :=
  { sampleCtx with listener_entries := [some sampleEntry] }

/-- All-capability listener interface table. -/
def ifaceAll : ListenerId → ListenerIface :=
  fun _ => { has_on_enter := true, has_on_leave := true }

/-- Concrete interceptor state with one instrumented address. -/
def stateAttach : GumInterceptorState :=
  { next_ctx_id := 1
    ctxs := fun _ => ctxAttached
    function_by_address := [(4096, 0)]
    selected_thread_id := 0
    current_transaction := gum_interceptor_transaction_init }

/-- Witness for `attach_result_spec`: attaching the already-present listener
3 to address 4096 reports already-attached and keeps the list. -/
theorem attach_result_spec_witness :
    List.lookup 4096 stateAttach.function_by_address = some 0
  ∧ gum_function_context_has_listener (stateAttach.ctxs 0) 3 = true
  ∧ (gum_interceptor_attach envA 1 stateAttach 4096 3 ifaceAll 7).1 =
      GumAttachReturn.already_attached
  ∧ ((gum_interceptor_attach envA 1 stateAttach 4096 3 ifaceAll 7).2.ctxs 0).listener_entries =
      (stateAttach.ctxs 0).listener_entries := by
  have h := (attach_result_spec envA 1 stateAttach 4096 3 ifaceAll 7 4096
    (by decide)).2.1 0 (by decide) (by decide) (by decide)
  exact ⟨by decide, by decide, h.1, h.2⟩

/-- C5: replace on a resolved context that already has a replacement
reports already-replaced and leaves the stored replacement function and
data untouched; on success (existing context without a replacement, or
fresh instrumentation) it stores the given replacement function and data
and hands the on-invoke trampoline back through a non-null out pointer. -/
theorem replace_result_spec (env : GumEnv) (fuel : Nat) (s : GumInterceptorState)
    (ty : GumInterceptorType) (fa : Addr) (repl : Nat) (rdata : Nat)
    (want_original : Bool) (addr : Addr)
    (haddr : gum_interceptor_resolve env s.function_by_address fuel fa = addr) :
    (∀ cid r0, List.lookup addr s.function_by_address = some cid →
      (s.ctxs cid).type = ty →
      (s.ctxs cid).replacement_function = some r0 →
      (gum_interceptor_replace_with_type env fuel s ty fa repl rdata
          want_original).1.1 = GumReplaceReturn.already_replaced
      ∧ (gum_interceptor_replace_with_type env fuel s ty fa repl rdata
          want_original).1.2 = none
      ∧ ((gum_interceptor_replace_with_type env fuel s ty fa repl rdata
          want_original).2.ctxs cid).replacement_function = some r0
      ∧ ((gum_interceptor_replace_with_type env fuel s ty fa repl rdata
          want_original).2.ctxs cid).replacement_data = (s.ctxs cid).replacement_data)
  ∧ (∀ cid, List.lookup addr s.function_by_address = some cid →
      (s.ctxs cid).type = ty →
      (s.ctxs cid).replacement_function = none →
      (gum_interceptor_replace_with_type env fuel s ty fa repl rdata
          want_original).1.1 = GumReplaceReturn.ok
      ∧ ((gum_interceptor_replace_with_type env fuel s ty fa repl rdata
          want_original).2.ctxs cid).replacement_function = some repl
      ∧ ((gum_interceptor_replace_with_type env fuel s ty fa repl rdata
          want_original).2.ctxs cid).replacement_data = rdata
      ∧ (gum_interceptor_replace_with_type env fuel s ty fa repl rdata
          want_original).1.2 =
          (if want_original then some ((s.ctxs cid).on_invoke_trampoline) else none))
  ∧ (List.lookup addr s.function_by_address = none →
      (if env.code_signing_required then env.claim_grafted addr
        else env.create_trampoline addr) = true →
      (gum_interceptor_replace_with_type env fuel s ty fa repl rdata
          want_original).1.1 = GumReplaceReturn.ok
      ∧ ((gum_interceptor_replace_with_type env fuel s ty fa repl rdata
          want_original).2.ctxs s.next_ctx_id).replacement_function = some repl
      ∧ ((gum_interceptor_replace_with_type env fuel s ty fa repl rdata
          want_original).2.ctxs s.next_ctx_id).replacement_data = rdata
      ∧ (gum_interceptor_replace_with_type env fuel s ty fa repl rdata
          want_original).1.2 =
          (if want_original then some (env.on_invoke_of addr) else none)) := by
  have hXm : (markDirty (gum_interceptor_transaction_begin s)).function_by_address =
      s.function_by_address := rfl
  refine ⟨?_, ?_, ?_⟩
  · intro cid r0 hcid ht hr0
    have hx : ((markDirty (gum_interceptor_transaction_begin s)).ctxs
        cid).replacement_function = some r0 := hr0
    have heq : gum_interceptor_replace_with_type env fuel s ty fa repl rdata
        want_original =
        ((GumReplaceReturn.already_replaced, none),
          (gum_interceptor_transaction_end
            (markDirty (gum_interceptor_transaction_begin s))).state) := by
      simp only [gum_interceptor_replace_with_type, hXm, haddr]
      rw [instrument_existing_same env (markDirty (gum_interceptor_transaction_begin s))
        ty addr cid hcid ht]
      simp [hx]
    rw [heq]
    refine ⟨rfl, rfl, ?_, ?_⟩
    · rw [((transaction_end_preserves
        (markDirty (gum_interceptor_transaction_begin s))).2.2 cid).2.1]
      exact hr0
    · exact ((transaction_end_preserves
        (markDirty (gum_interceptor_transaction_begin s))).2.2 cid).2.2.1
  · intro cid hcid ht hr0
    have hx : ((markDirty (gum_interceptor_transaction_begin s)).ctxs
        cid).replacement_function = none := hr0
    have heq : gum_interceptor_replace_with_type env fuel s ty fa repl rdata
        want_original =
        ((GumReplaceReturn.ok,
            if want_original then
              some (((markDirty (gum_interceptor_transaction_begin s)).ctxs
                cid).on_invoke_trampoline)
            else none),
          (gum_interceptor_transaction_end
            { markDirty (gum_interceptor_transaction_begin s) with
              ctxs := setCtx s.ctxs cid
                { s.ctxs cid with
                  replacement_data := rdata
                  replacement_function := some repl } }).state) := by
      simp only [gum_interceptor_replace_with_type, hXm, haddr]
      rw [instrument_existing_same env (markDirty (gum_interceptor_transaction_begin s))
        ty addr cid hcid ht]
      simp only [hx, Option.isSome_none, Bool.false_eq_true, if_false]
      rfl
    rw [heq]
    refine ⟨rfl, ?_, ?_, rfl⟩
    · rw [((transaction_end_preserves _).2.2 cid).2.1]
      simp [setCtx]
    · rw [((transaction_end_preserves _).2.2 cid).2.2.1]
      simp [setCtx]
  · intro hnone hok
    have heq : gum_interceptor_replace_with_type env fuel s ty fa repl rdata
        want_original =
        ((GumReplaceReturn.ok,
            if want_original then
              some (((instrumentFreshState env
                (markDirty (gum_interceptor_transaction_begin s)) ty addr).ctxs
                  s.next_ctx_id).on_invoke_trampoline)
            else none),
          (gum_interceptor_transaction_end
            { instrumentFreshState env
                (markDirty (gum_interceptor_transaction_begin s)) ty addr with
              ctxs := setCtx (instrumentFreshState env
                  (markDirty (gum_interceptor_transaction_begin s)) ty addr).ctxs
                s.next_ctx_id
                { (instrumentFreshState env
                    (markDirty (gum_interceptor_transaction_begin s)) ty addr).ctxs
                      s.next_ctx_id with
                  replacement_data := rdata
                  replacement_function := some repl } }).state) := by
      have hfr : ((instrumentFreshState env
          (markDirty (gum_interceptor_transaction_begin s)) ty addr).ctxs
            (markDirty (gum_interceptor_transaction_begin s)).next_ctx_id).replacement_function =
          none := by
        simp [instrumentFreshState, setCtx, instrumentFreshCtx,
          gum_function_context_new]
      simp only [gum_interceptor_replace_with_type, hXm, haddr]
      rw [instrument_fresh_ok env (markDirty (gum_interceptor_transaction_begin s))
        ty addr hnone hok]
      simp only [hfr, Option.isSome_none, Bool.false_eq_true, if_false]
      rfl
    rw [heq]
    have hfc : ((instrumentFreshState env
        (markDirty (gum_interceptor_transaction_begin s)) ty addr).ctxs
          s.next_ctx_id).on_invoke_trampoline = env.on_invoke_of addr := by
      have hXn : (markDirty (gum_interceptor_transaction_begin s)).next_ctx_id =
          s.next_ctx_id := rfl
      simp [instrumentFreshState, setCtx, instrumentFreshCtx,
        gum_function_context_new, hXn]
    refine ⟨rfl, ?_, ?_, by rw [hfc]⟩
    · rw [((transaction_end_preserves _).2.2 s.next_ctx_id).2.1]
      simp [setCtx]
    · rw [((transaction_end_preserves _).2.2 s.next_ctx_id).2.2.1]
      simp [setCtx]

/-- Context at address 4096 that already has a replacement installed. -/
def ctxReplaced : GumFunctionContext :=
  { sampleCtx with replacement_function := some 55, replacement_data := 9 }

/-- Concrete interceptor state with one replaced address. -/
def stateReplace : GumInterceptorState :=
  { next_ctx_id := 1
    ctxs := fun _ => ctxReplaced
    function_by_address := [(4096, 0)]
    selected_thread_id := 0
    current_transaction := gum_interceptor_transaction_init }

/-- Witness for `replace_result_spec`: replacing an already-replaced address
reports already-replaced and keeps the stored replacement. -/
theorem replace_result_spec_witness :
    List.lookup 4096 stateReplace.function_by_address = some 0
  ∧ (gum_interceptor_replace_with_type envA 1 stateReplace
      GumInterceptorType.default 4096 77 88 true).1.1 =
      GumReplaceReturn.already_replaced
  ∧ ((gum_interceptor_replace_with_type envA 1 stateReplace
      GumInterceptorType.default 4096 77 88 true).2.ctxs 0).replacement_function =
      some 55 := by
  have h := (replace_result_spec envA 1 stateReplace GumInterceptorType.default
    4096 77 88 true 4096 (by decide)).1 0 55 (by decide) (by decide) (by decide)
  exact ⟨by decide, h.1, h.2.2.1⟩
